import Mathlib

/-!
Verification development for the google-news-summaries extension
(`src/background.js`, `src/contentScript.js`).

JavaScript strings are modelled as lists of UTF-16 code units (`JStr`);
all inputs relevant here stay inside the basic multilingual plane, where
one code unit is one code point.  Pure string-processing functions are
translated directly from the source; browser effects (fetch, DOMParser)
are modelled by explicit oracles: a prescribed list of HTTP outcomes that
the engine consumes in order, and an abstract "extracted DOM text" value
for the `DOMParser`-based extractor.
-/

set_option maxRecDepth 40000

namespace GNS

/-- A JavaScript string: a list of UTF-16 code units. -/
abbrev JStr := List Nat

/-- Embed a Lean string literal as a `JStr` (all literals used stay in the BMP). -/
def jstr (s : String) : JStr := s.toList.map Char.toNat

/-- ASCII lower-casing, as performed by `String.prototype.toLowerCase` on
the ASCII-only inputs that the source lower-cases (model names, header
names, response status fields). -/
def lowerCode (c : Nat) : Nat := if 65 ≤ c ∧ c ≤ 90 then c + 32 else c

def lowerStr (s : JStr) : JStr := s.map lowerCode

/-- The JavaScript `\s` class / `String.prototype.trim` whitespace set. -/
def isJsWs (c : Nat) : Bool :=
  c == 9 || c == 10 || c == 11 || c == 12 || c == 13 || c == 32 || c == 160 ||
  c == 0x1680 || (0x2000 ≤ c && c ≤ 0x200a) || c == 0x2028 || c == 0x2029 ||
  c == 0x202f || c == 0x205f || c == 0x3000 || c == 0xfeff

/-- Embeds `s.replace(/\s+/g, ' ')`: every maximal run of whitespace becomes one
space.  The Boolean flag records whether the previous input character was
whitespace (i.e. whether we are inside a run whose space has been emitted). -/
def collapseWsAux : Bool → JStr → JStr
  | _, [] => []
  | prevWs, c :: rest =>
    if isJsWs c then
      if prevWs then collapseWsAux true rest
      else 32 :: collapseWsAux true rest
    else c :: collapseWsAux false rest

def collapseWs (s : JStr) : JStr := collapseWsAux false s

/-- Leading-whitespace removal (first half of `String.prototype.trim`). -/
def dropLeadWs (s : JStr) : JStr := s.dropWhile (fun c => isJsWs c)

/-- Trailing-whitespace removal (second half of `String.prototype.trim`). -/
def dropTrailWs : JStr → JStr
  | [] => []
  | c :: rest =>
    match dropTrailWs rest with
    | [] => if isJsWs c then [] else [c]
    | r => c :: r

/-- Embeds `String.prototype.trim`. -/
def trimWs (s : JStr) : JStr := dropTrailWs (dropLeadWs s)

/-- The Unicode ellipsis character appended by the content-script
`sanitizeOneLine`. -/
def ellipsisCode : Nat := 0x2026

namespace Background

/-- Embeds `sanitizeOneLine` from `src/background.js` (line 1364): collapse
whitespace, trim, and on overflow truncate to 200 characters, re-trim and
append the (empty, in this copy of the file) marker string. -/
def sanitizeOneLine (s : JStr) : JStr :=
  let one := trimWs (collapseWs s)
  if 200 < one.length then trimWs (one.take 200) else one

end Background

namespace ContentScript

/-- Embeds `sanitizeOneLine` from `src/contentScript.js` (line 1534): collapse
whitespace, trim, and on overflow truncate to 200 characters, re-trim and
append a single `…` marker. -/
def sanitizeOneLine (s : JStr) : JStr :=
  let one := trimWs (collapseWs s)
  if 200 < one.length then trimWs (one.take 200) ++ [ellipsisCode] else one

end ContentScript

/-! ### Substring and regular-expression machinery

The source relies on JavaScript regular expressions.  They are embedded
via a small backtracking matcher over an explicit pattern datatype; each
concrete pattern below mirrors one regex literal of the source.  `fuel`
bounds recursion depth only; every call site supplies enough fuel for the
matcher to be exact on its input (one unit is spent per consumed
character, per pattern atom and per alternation step). -/

/-- Tests whether the first argument occurs at the head of the second. -/
def leadsWith : JStr → JStr → Bool
  | [], _ => true
  | _ :: _, [] => false
  | a :: l, b :: m => a == b && leadsWith l m

/-- Embeds `hay.includes(needle)` starting at any position. -/
def includesFrom (needle : JStr) : JStr → Bool
  | [] => leadsWith needle []
  | c :: t => leadsWith needle (c :: t) || includesFrom needle t

/-- Embeds `hay.includes(needle)` (case-sensitive, as `String.prototype.includes`). -/
def includesSub (hay needle : JStr) : Bool := includesFrom needle hay

/-- Case-insensitive substring test (a `/literal/i.test(hay)` regex). -/
def includesSubCI (hay needle : JStr) : Bool :=
  includesFrom (lowerStr needle) (lowerStr hay)

/-- Embeds `hay.endsWith(suffixStr)`. -/
def endsWithSub (hay suffixStr : JStr) : Bool :=
  leadsWith suffixStr.reverse hay.reverse

/-- Pattern atoms for the embedded regexes: case-optional literals,
character classes, `X?`, greedy/lazy `X*`, ordered alternation, one
capture group delimited by `gOpen`/`gClose`, and the `$` anchor. -/
inductive Re where
  | lit (ci : Bool) (s : JStr)
  | cls (p : Nat → Bool)
  | opt (p : Nat → Bool)
  | star (greedy : Bool) (p : Nat → Bool)
  | alt (alts : List (List Re))
  | gOpen
  | gClose
  | eos

/-- Literal match at the head of `s` (`ci` = the regex `i` flag). -/
def litMatch (ci : Bool) (l s : JStr) : Bool :=
  if ci then leadsWith (lowerStr l) (lowerStr (s.take l.length)) else leadsWith l s

/-- Backtracking matcher: try the pattern list `ps` at the head of `s`.
Returns the capture (if a group closed) and the unconsumed rest.
Greedy stars prefer consuming a class character; lazy stars prefer the
continuation; alternatives are tried in order, as in JavaScript. -/
def reM : Nat → List Re → JStr → Option JStr → Option JStr → Option (Option JStr × JStr)
  | 0, _, _, _, _ => none
  | _ + 1, [], s, _, cap => some (cap, s)
  | fuel + 1, re :: ps, s, gs, cap =>
    match re with
    | .lit ci l => if litMatch ci l s then reM fuel ps (s.drop l.length) gs cap else none
    | .cls p =>
      match s with
      | [] => none
      | c :: t => if p c then reM fuel ps t gs cap else none
    | .opt p =>
      (match s with
       | c :: t =>
         if p c then
           match reM fuel ps t gs cap with
           | some r => some r
           | none => reM fuel ps s gs cap
         else reM fuel ps s gs cap
       | [] => reM fuel ps s gs cap)
    | .star g p =>
      if g then
        match (match s with
               | c :: t => if p c then reM fuel (.star g p :: ps) t gs cap else none
               | [] => none) with
        | some r => some r
        | none => reM fuel ps s gs cap
      else
        match reM fuel ps s gs cap with
        | some r => some r
        | none =>
          match s with
          | c :: t => if p c then reM fuel (.star g p :: ps) t gs cap else none
          | [] => none
    | .alt alts =>
      (match alts with
       | [] => none
       | a :: rest =>
         match reM fuel (a ++ ps) s gs cap with
         | some r => some r
         | none => reM fuel (.alt rest :: ps) s gs cap)
    | .gOpen => reM fuel ps s (some s) cap
    | .gClose =>
      let consumed := match gs with
        | some start => start.take (start.length - s.length)
        | none => []
      reM fuel ps s none (some consumed)
    | .eos =>
      match s with
      | [] => reM fuel ps [] gs cap
      | _ :: _ => none

/-- Run a pattern at the head of `s` with sufficient fuel. -/
def runRe (ps : List Re) (s : JStr) : Option (Option JStr × JStr) :=
  reM (2 * s.length + 400) ps s none none

/-- Embeds `/pattern/.test(s)`: unanchored search. -/
def reSearch (ps : List Re) : Nat → JStr → Bool
  | 0, _ => false
  | fuel + 1, s =>
    match runRe ps s with
    | some _ => true
    | none =>
      match s with
      | [] => false
      | _ :: t => reSearch ps fuel t

def reTest (ps : List Re) (s : JStr) : Bool := reSearch ps (s.length + 1) s

/-- Embeds `s.match(/pattern/)` for a pattern with one group: first match's capture. -/
def reFindCap (ps : List Re) : Nat → JStr → Option JStr
  | 0, _ => none
  | fuel + 1, s =>
    match runRe ps s with
    | some (cap, _) => some (cap.getD [])
    | none =>
      match s with
      | [] => none
      | _ :: t => reFindCap ps fuel t

/-- Embeds `s.replace(/pattern/g, r)`: non-overlapping left-to-right replacement. -/
def replAll (ps : List Re) (r : JStr) : Nat → JStr → JStr
  | 0, s => s
  | _ + 1, [] => []
  | fuel + 1, c :: rest =>
    match runRe ps (c :: rest) with
    | some (_, tail) =>
      if tail.length < rest.length + 1 then r ++ replAll ps r fuel tail
      else c :: replAll ps r fuel rest
    | none => c :: replAll ps r fuel rest

/-! ### `htmlToText` (identical in `src/background.js` line 1042 and
`src/contentScript.js` line 1212) -/

def anyC : Nat → Bool := fun _ => true

/-- Embeds `[^>]` -/
def ne62 : Nat → Bool := fun c => !(c == 62)

/-- Embeds `[^<]` -/
def ne60 : Nat → Bool := fun c => !(c == 60)

/-- Embeds `/<script[\s\S]*?<\/script>/gi` -/
def reScript : List Re := [.lit true (jstr "<script"), .star false anyC, .lit true (jstr "</script>")]

/-- Embeds `/<style[\s\S]*?<\/style>/gi` -/
def reStyle : List Re := [.lit true (jstr "<style"), .star false anyC, .lit true (jstr "</style>")]

/-- Embeds `/<\/(p|div|h[1-6]|li|ul|ol|section|article|header|footer|br)\s*>/gi` -/
def reBlockClose : List Re :=
  [.lit true (jstr "</"),
   .alt [[.lit true (jstr "p")], [.lit true (jstr "div")],
         [.lit true (jstr "h"), .cls (fun c => 49 ≤ c && c ≤ 54)],
         [.lit true (jstr "li")], [.lit true (jstr "ul")], [.lit true (jstr "ol")],
         [.lit true (jstr "section")], [.lit true (jstr "article")],
         [.lit true (jstr "header")], [.lit true (jstr "footer")],
         [.lit true (jstr "br")]],
   .star true (fun c => isJsWs c), .lit true (jstr ">")]

/-- Embeds `/<[^>]+>/g` -/
def reTagPlus : List Re := [.lit true (jstr "<"), .cls ne62, .star true ne62, .lit true (jstr ">")]

/-- The entity-decoding pass of `htmlToText`: the alternation
`/(&nbsp;|&|<|>|"|&#39;|')/g` mapped through the `entities` table, with
alternatives tried in source order.  In this copy of the file every
alternative except `&nbsp;` maps a character to itself, and the `&#39;`
alternative is shadowed by the single `&` one before it. -/
def entityStep : Nat → JStr → JStr
  | 0, s => s
  | _ + 1, [] => []
  | fuel + 1, s@(c :: rest) =>
    if leadsWith (jstr "&nbsp;") s then 32 :: entityStep fuel (s.drop 6)
    else if c == 38 then 38 :: entityStep fuel rest
    else if c == 60 then 60 :: entityStep fuel rest
    else if c == 62 then 62 :: entityStep fuel rest
    else if c == 34 then 34 :: entityStep fuel rest
    else if c == 39 then 39 :: entityStep fuel rest
    else c :: entityStep fuel rest

/-- Embeds `htmlToText`: drop script/style blocks, turn block-closing tags into
newlines, strip remaining tags, decode entities, collapse whitespace and
cap at 20,000 characters.  (`if (!html) return ''` handles the empty
string.) -/
def htmlToText (html : JStr) : JStr :=
  if html = [] then []
  else
    let h1 := replAll reScript (jstr " ") (html.length + 1) html
    let h2 := replAll reStyle (jstr " ") (h1.length + 1) h1
    let h3 := replAll reBlockClose (jstr "\n") (h2.length + 1) h2
    let h4 := replAll reTagPlus (jstr " ") (h3.length + 1) h3
    let h5 := entityStep (h4.length + 1) h4
    (trimWs (collapseWs h5)).take 20000

/-- Embeds `extractMainText` (background line 1074 / content script line 1243).
The `DOMParser`-based part is abstracted by its outcome `dom`:
`none` covers every path returning `''` (no `DOMParser`, no document, no
scoring candidate, internal exception); `some raw` is the selected best
element's `innerText`/`textContent`, to which the source applies
`.replace(/\s+/g, ' ').trim()` and `.slice(0, 30000)`. -/
def extractMainText (dom : Option JStr) : JStr :=
  match dom with
  | none => []
  | some raw => (trimWs (collapseWs raw)).take 30000

/-- Every whitespace code unit in `s` is a plain space. -/
def wsOnlySpace (s : JStr) : Bool := s.all (fun c => !(isJsWs c) || c == 32)

/-- No two adjacent space characters. -/
def noTwoSpaces : JStr → Bool
  | a :: b :: t => (!(a == 32 && b == 32)) && noTwoSpaces (b :: t)
  | _ => true

/-! ### `fetchHtml` (background line 101 / content script line 1000)

HTTP is modelled by oracles: a `FetchOut` is what one `fetch` call comes
back with — either a thrown network error or a response with a status and
a payload.  `Payload.contentQ` abstracts the JSON extraction
(`choices[0].message.content` for the chat endpoint, the
output-shape probing of lines 1271-1305 for the responses endpoint):
`none` when no string could be extracted, `some s` otherwise.
`statusField` is the top-level `status` field of a responses-API body
(`[]` when absent), `body` the raw text body used for error reporting. -/

structure Payload where
  contentQ : Option JStr
  statusField : JStr
  body : JStr
  deriving DecidableEq, Repr

inductive FetchOut where
  | thrown (msg : JStr)
  | resp (status : Nat) (p : Payload)
  deriving DecidableEq, Repr

/-- The two request identities `fetchHtml` can use. -/
inductive FetchReq where
  | plain
  | withReferrer
  deriving DecidableEq, Repr

/-- Embeds `res.ok`. -/
def fetchOk : FetchOut → Bool
  | .resp st _ => decide (200 ≤ st) && decide (st < 300)
  | .thrown _ => false

def bodyOf : FetchOut → JStr
  | .resp _ p => p.body
  | .thrown _ => []

/-- The error the first attempt of `fetchHtml` produces: the thrown
exception, or the `Fetch failed (status)` error for a non-2xx response. -/
def natToDigits (n : Nat) : JStr := (Nat.toDigits 10 n).map Char.toNat

def attemptErr : FetchOut → JStr
  | .thrown m => m
  | .resp st _ => jstr "Fetch failed (" ++ natToDigits st ++ jstr ")"

/-- The retry branch of `fetchHtml` (the inner `try`): one more fetch with
the fixed `https://news.google.com/` referrer; if it also fails, the
FIRST attempt's error `e1` is rethrown (`throw e1`). -/
def retryFetch (e1 : JStr) (a2 : FetchOut) : Except JStr JStr × List FetchReq :=
  match a2 with
  | .resp st p =>
    if 200 ≤ st ∧ st < 300 then (.ok p.body, [.plain, .withReferrer])
    else (.error e1, [.plain, .withReferrer])
  | .thrown _ => (.error e1, [.plain, .withReferrer])

/-- Embeds `fetchHtml`, over the outcomes `a1` (default request) and `a2`
(referrer retry, consulted only on failure of `a1`).  Also returns the
list of requests issued. -/
def fetchHtml (a1 a2 : FetchOut) : Except JStr JStr × List FetchReq :=
  match a1 with
  | .resp st p =>
    if 200 ≤ st ∧ st < 300 then (.ok p.body, [.plain])
    else retryFetch (jstr "Fetch failed (" ++ natToDigits st ++ jstr ")") a2
  | .thrown m => retryFetch m a2

/-! ### URL predicates (background lines 1001-1040) -/

/-- A parsed `URL` object: what `new URL(href)` yields.  `href` is the
serialized form, `host` the (lower-cased, per WHATWG) `hostname`,
`path` the `pathname`. -/
structure Url where
  href : JStr
  host : JStr
  path : JStr
  deriving DecidableEq, Repr

def isDigitCode : Nat → Bool := fun c => 48 ≤ c && c ≤ 57
def isLowerAz : Nat → Bool := fun c => 97 ≤ c && c ≤ 122
def isAsciiLetter : Nat → Bool := fun c => (65 ≤ c && c ≤ 90) || (97 ≤ c && c ≤ 122)

/-- Embeds `isDisallowedHost` (background line 1001): the alternation
`/(news\.google\.com|google\.[^\/]+|gstatic\.com|...)/i` tested against
the hostname.  All alternatives but `google\.[^\/]+` are literals. -/
def reGoogleDot : List Re := [.lit true (jstr "google."), .cls (fun c => !(c == 47)), .star true (fun c => !(c == 47))]

def disallowedHostLits : List JStr :=
  [jstr "news.google.com", jstr "gstatic.com", jstr "googleusercontent.com",
   jstr "googleapis.com", jstr "doubleclick.net", jstr "googletagmanager.com",
   jstr "google-analytics.com", jstr "scorecardresearch.com",
   jstr "adservice.google.com", jstr "youtube.com", jstr "twitter.com",
   jstr "facebook.com", jstr "t.co", jstr "cdn.ampproject.org", jstr "w3.org",
   jstr "schema.org", jstr "ogp.me", jstr "opengraphprotocol.org"]

def isDisallowedHost (hostname : JStr) : Bool :=
  includesSubCI hostname (jstr "news.google.com") || reTest reGoogleDot (lowerStr hostname) ||
  (disallowedHostLits.drop 1).any (fun l => includesSubCI hostname l)

/-- Embeds `/\.(js|css|png|jpe?g|gif|webp|svg|ico|json|xml|woff2?|ttf|eot)(\?|$)/i`
(the background `isLikelyArticleUrl` asset-extension filter). -/
def reAssetExt : List Re :=
  [.lit true (jstr "."),
   .alt [[.lit true (jstr "js")], [.lit true (jstr "css")], [.lit true (jstr "png")],
         [.lit true (jstr "jp"), .opt (fun c => lowerCode c == 101), .lit true (jstr "g")],
         [.lit true (jstr "gif")], [.lit true (jstr "webp")], [.lit true (jstr "svg")],
         [.lit true (jstr "ico")], [.lit true (jstr "json")], [.lit true (jstr "xml")],
         [.lit true (jstr "woff"), .opt (fun c => c == 50)],
         [.lit true (jstr "ttf")], [.lit true (jstr "eot")]],
   .alt [[.cls (fun c => c == 63)], [.eos]]]

/-- Embeds `/\/\d{4}\/\d{2}\/\d{2}\//`: date-shaped path segment. -/
def reDatePath : List Re :=
  [.lit false (jstr "/"), .cls isDigitCode, .cls isDigitCode, .cls isDigitCode, .cls isDigitCode,
   .lit false (jstr "/"), .cls isDigitCode, .cls isDigitCode,
   .lit false (jstr "/"), .cls isDigitCode, .cls isDigitCode, .lit false (jstr "/")]

/-- Embeds `/\/[a-z]{2,}\/\d{4}\//` -/
def reWordYear : List Re :=
  [.lit false (jstr "/"), .cls isLowerAz, .cls isLowerAz, .star true isLowerAz,
   .lit false (jstr "/"), .cls isDigitCode, .cls isDigitCode, .cls isDigitCode, .cls isDigitCode,
   .lit false (jstr "/")]

/-- Embeds `/\/[a-z]{2,}\/[a-z]{2,}\//` -/
def reWordWord : List Re :=
  [.lit false (jstr "/"), .cls isLowerAz, .cls isLowerAz, .star true isLowerAz,
   .lit false (jstr "/"), .cls isLowerAz, .cls isLowerAz, .star true isLowerAz,
   .lit false (jstr "/")]

/-- The eight `articlePatterns` of the background `isLikelyArticleUrl`
(lines 1017-1026); the literal ones are case-sensitive substring tests. -/
def likelyArticlePatterns (path : JStr) : Bool :=
  reTest reDatePath path ||
  includesSub path (jstr "/article/") || includesSub path (jstr "/story/") ||
  includesSub path (jstr "/news/") || includesSub path (jstr "/post/") ||
  includesSub path (jstr "/blog/") ||
  reTest reWordYear path || reTest reWordWord path

/-- Embeds `isLikelyArticleUrl` (background line 1007) on a parsed URL; the
`none` case is the `catch { return false }` for a malformed `href`. -/
def isLikelyArticleUrl : Option Url → Bool
  | none => false
  | some u =>
    if isDisallowedHost u.host then false
    else if reTest reAssetExt u.path then false
    else if likelyArticlePatterns u.path then true
    else decide (5 < u.path.length) && u.path.any isAsciiLetter

/-! ### `probeExternalRedirect` (background line 131) -/

/-- One `redirect: 'manual'` probe outcome: thrown, or a response with a
status and the `Location` header (`none` = absent). -/
inductive ProbeFetch where
  | thrown
  | resp (status : Nat) (location : Option JStr)
  deriving DecidableEq, Repr

/-- What one probe attempt yields: the absolutized Location's `href`
when the response is a 3xx carrying a non-empty `Location` header that
resolves (`resolveUrl` models `new URL(loc, url)`; `none` = it threw) and
passes `isLikelyArticleUrl`; `none` otherwise (including thrown fetches,
which the source swallows). -/
def probeAttemptResult (resolveUrl : JStr → Option Url) : ProbeFetch → Option JStr
  | .thrown => none
  | .resp status loc =>
    if 300 ≤ status ∧ status < 400 then
      match loc with
      | some l =>
        if l ≠ [] then
          match resolveUrl l with
          | some u => if isLikelyArticleUrl (some u) then some u.href else none
          | none => none
        else none
      | none => none
    else none

/-- Embeds `probeExternalRedirect`: first attempt, then the referrer retry, and
`''` when neither qualifies. -/
def probeExternalRedirect (resolveUrl : JStr → Option Url) (a1 a2 : ProbeFetch) : JStr :=
  match probeAttemptResult resolveUrl a1 with
  | some h => h
  | none =>
    match probeAttemptResult resolveUrl a2 with
    | some h => h
    | none => []

/-! ### The selection phase of `extractExternalUrlFromGoogleNews`
(background lines 362-951)

The collection phase (lines 447-770) accumulates candidate strings into
`hrefs` by many regex sweeps; the claims quantify over an arbitrary
candidate list, which subsumes every output of that phase, so only the
three filtering passes over `hrefs` are embedded.  Candidates are taken
already parsed (`new URL(h)`; strings whose parse throws are skipped by
the source's `catch` and are simply absent from the quantified list). -/

def blacklistedHosts : List JStr :=
  [jstr "w3.org", jstr "schema.org", jstr "ogp.me", jstr "opengraphprotocol.org",
   jstr "xml.org", jstr "ietf.org", jstr "rfc-editor.org", jstr "whatwg.org",
   jstr "ecma-international.org", jstr "iso.org", jstr "ansi.org", jstr "ieee.org",
   jstr "developer.mozilla.org", jstr "docs.microsoft.com", jstr "developers.google.com",
   jstr "github.com", jstr "gitlab.com", jstr "stackoverflow.com", jstr "stackexchange.com",
   jstr "reddit.com", jstr "hackernews.com",
   jstr "angular.dev", jstr "angular.io", jstr "react.dev", jstr "reactjs.org",
   jstr "vuejs.org", jstr "svelte.dev", jstr "nextjs.org", jstr "nuxtjs.org",
   jstr "gatsbyjs.com", jstr "webpack.js.org", jstr "babeljs.io", jstr "eslint.org",
   jstr "prettier.io", jstr "typescript.org", jstr "nodejs.org", jstr "npmjs.com",
   jstr "yarnpkg.com", jstr "deno.land", jstr "bun.sh",
   jstr "facebook.com", jstr "twitter.com", jstr "x.com", jstr "instagram.com",
   jstr "linkedin.com", jstr "youtube.com", jstr "tiktok.com", jstr "snapchat.com",
   jstr "pinterest.com", jstr "tumblr.com",
   jstr "cdn.jsdelivr.net", jstr "unpkg.com", jstr "jsdelivr.net",
   jstr "cdnjs.cloudflare.com", jstr "bootcdn.net", jstr "cdn.staticfile.org",
   jstr "lib.baomitu.com", jstr "cdn.bootcss.com",
   jstr "google-analytics.com", jstr "googletagmanager.com", jstr "doubleclick.net",
   jstr "facebook.net", jstr "scorecardresearch.com", jstr "adservice.google.com",
   jstr "googlesyndication.com",
   jstr "chrome.google.com", jstr "addons.mozilla.org", jstr "extensions.chrome.com",
   jstr "microsoftedge.microsoft.com", jstr "support.apple.com",
   jstr "support.microsoft.com", jstr "help.ubuntu.com"]

/-- The eight `blacklistedPathPatterns` (lines 399-423): each an
unanchored case-insensitive alternation of literal words, i.e. a test
whether any word occurs in the path. -/
def blacklistedPathWords : List JStr :=
  [jstr "namespace", jstr "schema", jstr "specification", jstr "reference",
   jstr "documentation", jstr "xml", jstr "html", jstr "css", jstr "javascript",
   jstr "api", jstr "rfc", jstr "ietf", jstr "draft", jstr "proposal", jstr "working-group",
   jstr "chrome", jstr "firefox", jstr "safari", jstr "edge", jstr "browser",
   jstr "extension", jstr "addon", jstr "plugin", jstr "update", jstr "download", jstr "install",
   jstr "github", jstr "gitlab", jstr "stackoverflow", jstr "reddit", jstr "hackernews",
   jstr "forum", jstr "community", jstr "support", jstr "help", jstr "faq", jstr "docs",
   jstr "manual", jstr "guide", jstr "tutorial",
   jstr "facebook", jstr "twitter", jstr "instagram", jstr "linkedin", jstr "youtube",
   jstr "tiktok", jstr "snapchat", jstr "pinterest", jstr "tumblr", jstr "social",
   jstr "share", jstr "like", jstr "comment",
   jstr "cdn", jstr "static", jstr "assets", jstr "images", jstr "js", jstr "fonts",
   jstr "icons", jstr "logos", jstr "banners", jstr "ads", jstr "tracking", jstr "analytics",
   jstr "license", jstr "licenses", jstr "terms", jstr "privacy", jstr "policy",
   jstr "policies", jstr "legal", jstr "disclaimer", jstr "copyright", jstr "trademark",
   jstr "patent",
   jstr "about", jstr "contact", jstr "feedback", jstr "report", jstr "bug", jstr "issue",
   jstr "status", jstr "maintenance", jstr "sitemap", jstr "robots",
   jstr "login", jstr "logout", jstr "signin", jstr "signout", jstr "register",
   jstr "signup", jstr "account", jstr "profile", jstr "settings", jstr "preferences",
   jstr "dashboard", jstr "admin"]

/-- Embeds `isUrlBlacklisted` (line 426): blacklisted host (substring or
dot-suffix) or blacklisted path word. -/
def isUrlBlacklisted (host path : JStr) : Bool :=
  blacklistedHosts.any (fun b => includesSub host b || endsWithSub host (jstr "." ++ b)) ||
  blacklistedPathWords.any (fun w => includesSubCI path w)

/-- The Google-infrastructure skip applied in every pass (e.g. line 818). -/
def isGoogleInfraHost (host : JStr) : Bool :=
  includesSub host (jstr "google.com") || includesSub host (jstr "gstatic.com") ||
  includesSub host (jstr "googleusercontent.com") || includesSub host (jstr "cdn.ampproject.org")

/-- The 20 `articlePatterns` of the first pass (lines 829-850). -/
def pass1ArticlePatterns (path : JStr) : Bool :=
  reTest reDatePath path ||
  includesSub path (jstr "/article/") || includesSub path (jstr "/story/") ||
  includesSub path (jstr "/news/") || includesSub path (jstr "/post/") ||
  includesSub path (jstr "/blog/") ||
  reTest reWordYear path || reTest reWordWord path ||
  includesSub path (jstr "/articles/") || includesSub path (jstr "/entertainment/") ||
  includesSub path (jstr "/tech/") || includesSub path (jstr "/sports/") ||
  includesSub path (jstr "/politics/") || includesSub path (jstr "/business/") ||
  includesSub path (jstr "/world/") || includesSub path (jstr "/local/") ||
  includesSub path (jstr "/opinion/") || includesSub path (jstr "/lifestyle/") ||
  includesSub path (jstr "/health/") || includesSub path (jstr "/science/")

/-- First pass (lines 811-869): article-patterned or substantial paths. -/
def pass1Ok (u : Url) : Bool :=
  !(isGoogleInfraHost u.host) && !(isUrlBlacklisted u.host u.path) &&
  (pass1ArticlePatterns u.path ||
   (decide (15 < u.path.length) && u.path.any isAsciiLetter))

/-- Embeds `isLikelyNewsSite` of the second pass (lines 898-904). -/
def newsHostWords : List JStr :=
  [jstr "news", jstr "media", jstr "press", jstr "journal", jstr "times", jstr "post",
   jstr "tribune", jstr "herald", jstr "gazette", jstr "chronicle", jstr "observer",
   jstr "review", jstr "weekly", jstr "daily", jstr "magazine", jstr "blog", jstr "site",
   jstr "web", jstr "online", jstr "digital", jstr "com", jstr "org", jstr "net",
   jstr "co", jstr "io", jstr "dev"]

def newsPathWords : List JStr :=
  [jstr "article", jstr "story", jstr "post", jstr "blog", jstr "news", jstr "content",
   jstr "page", jstr "view", jstr "read"]

def isLikelyNewsSite (host path : JStr) : Bool :=
  newsHostWords.any (fun w => includesSubCI host w) ||
  (decide (10 < path.length) && path.any isAsciiLetter) ||
  newsPathWords.any (fun w => includesSubCI path w)

/-- Second pass (lines 874-917). -/
def pass2Ok (u : Url) : Bool :=
  !(isGoogleInfraHost u.host) && !(isUrlBlacklisted u.host u.path) &&
  u.host ≠ [] && u.host ≠ jstr "news.google.com" &&
  isLikelyNewsSite u.host u.path

/-- Third pass (lines 922-947): any surviving external host. -/
def pass3Ok (u : Url) : Bool :=
  !(isGoogleInfraHost u.host) && !(isUrlBlacklisted u.host u.path) &&
  u.host ≠ [] && u.host ≠ jstr "news.google.com"

/-- The selection phase of `extractExternalUrlFromGoogleNews`: the three
passes over the candidate list, first hit wins, `none` for the final
`return ''`. -/
def selectExternalUrl (hrefs : List Url) : Option Url :=
  match hrefs.find? pass1Ok with
  | some u => some u
  | none =>
    match hrefs.find? pass2Ok with
    | some u => some u
    | none => hrefs.find? pass3Ok

/-! ### The summarization engine (background lines 1144-1354) -/

structure Settings where
  apiKey : JStr
  model : JStr
  systemPrompt : JStr
  deriving DecidableEq, Repr

/-- The two request shapes the engine can issue, with the responses-API
variant fields (`max_output_tokens` cap and `text.format` hint). -/
inductive Request where
  | chat
  | responses (cap : Option Nat) (fmt : Bool)
  deriving DecidableEq, Repr

/-- The fallback system prompt inside `buildPrompt` (background line 1161). -/
def defaultSystemPrompt : JStr :=
  jstr "You are a news summarizer.\n- Return exactly one concise sentence (max 25 words).\n- No emojis, no quotes, no markdown.\n- Be factual and neutral."

/-- Embeds `buildPrompt` (background line 1154): collapse and trim the text, cap
it at 8,000 characters, wrap it in the fixed instruction template. -/
def buildPrompt (text : JStr) (settings : Settings) : JStr × JStr :=
  let t := (trimWs (collapseWs text)).take 8000
  let system := if settings.systemPrompt ≠ [] then settings.systemPrompt else defaultSystemPrompt
  let user := jstr "Summarize the following content into ONE single-line sentence (max 25 words):\n---\n"
              ++ t ++ jstr "\n---"
  (system, user)

def msgNoKey : JStr := jstr "OpenAI API key not set. Configure it in the extension Options."
def msgNoSummary : JStr := jstr "No summary returned by OpenAI"

/-- The non-ASCII-header message of `src/background.js` line 1344.  In
this copy of the file that message is plain ASCII (the parenthetical
reads `(no )`); the `src/contentScript.js` copy of the same message (its
line 1514) retains the typographic quotes and the ellipsis and is
embedded separately as `ContentScript.headerNonAsciiMsg`. -/
def headerNonAsciiMsg (name : JStr) : JStr :=
  jstr "Header \"" ++ name ++
  jstr "\" contains a non-ASCII character (e.g., \"smart quotes\" or an ellipsis). Re-copy your API key exactly from OpenAI (no ) and paste plain text."

/-- The over-long-key message, byte-identical in both files (background
line 1351, content script line 1521). -/
def apiKeyTooLongMsg : JStr :=
  jstr "API key appears unusually long. Ensure you copied the exact key (no hidden/truncated characters)."

/-- Embeds `value.replace(/^Bearer\s+/i, '')`. -/
def stripBearer (value : JStr) : JStr :=
  if lowerStr (value.take 6) = jstr "bearer" ∧ (value.drop 6).takeWhile (fun c => isJsWs c) ≠ []
  then (value.drop 6).dropWhile (fun c => isJsWs c)
  else value

/-- Embeds `validateHeaderByteString` of `src/background.js` (line 1338):
`some msg` models a throw.  The source throws at the first code unit
above 127; otherwise, for the `Authorization` header, it rejects a
Bearer token longer than 200 characters.  The content-script copy (line
1508), identical except for its message text, is embedded as
`ContentScript.validateHeaderByteString`. -/
def validateHeaderByteString (name value : JStr) : Option JStr :=
  if value.any (fun c => 127 < c) then some (headerNonAsciiMsg name)
  else if lowerStr name = jstr "authorization" ∧ 200 < (stripBearer value).length
  then some apiKeyTooLongMsg
  else none

/-- Pop the next prescribed fetch outcome; an exhausted oracle behaves as
a thrown network error. -/
def worldTake : List FetchOut → FetchOut × List FetchOut
  | [] => (.thrown (jstr "network error"), [])
  | o :: t => (o, t)

/-- Embeds `/max_?completion_?tokens/i` -/
def reMaxCompletion : List Re :=
  [.lit true (jstr "max"), .opt (fun c => c == 95), .lit true (jstr "completion"),
   .opt (fun c => c == 95), .lit true (jstr "tokens")]

/-- The chat-to-responses fallback trigger (background line 1217):
HTTP 400 with a body mentioning both token-cap parameter spellings. -/
def chatFallbackTrigger (status : Nat) (body : JStr) : Bool :=
  status == 400 && includesSubCI body (jstr "max_tokens") && reTest reMaxCompletion (lowerStr body)

/-- The inner `for (const useTextFormat of [true, false])` loop of
`summarizeWithOpenAIResponses` (lines 1251-1333).  Returns
`(some result, log, world, lastErr)` when the function returns or throws,
and `(none, ...)` when the loop breaks or falls through to the next cap. -/
def respInner (isLast : Bool) (cap : Option Nat) :
    List Bool → List FetchOut → Option JStr →
    Option (Except JStr JStr) × List Request × List FetchOut × Option JStr
  | [], world, lastErr => (none, [], world, lastErr)
  | fmt :: fmts, world, lastErr =>
    let o := worldTake world
    let req := Request.responses cap fmt
    match o.1 with
    | .thrown msg => (some (.error msg), [req], o.2, lastErr)
    | .resp status p =>
      if 200 ≤ status ∧ status < 300 then
        match p.contentQ with
        | some c =>
          if trimWs c = [] then
            if lowerStr p.statusField = jstr "incomplete" ∧ ¬isLast then
              (none, [req], o.2, lastErr)
            else (some (.error msgNoSummary), [req], o.2, lastErr)
          else (some (.ok (Background.sanitizeOneLine c)), [req], o.2, lastErr)
        | none =>
          if lowerStr p.statusField = jstr "incomplete" ∧ ¬isLast then
            (none, [req], o.2, lastErr)
          else (some (.error msgNoSummary), [req], o.2, lastErr)
      else
        let errText := p.body
        if (includesSubCI errText (jstr "unsupported_parameter") && includesSubCI errText (jstr "text.format"))
           || (includesSubCI errText (jstr "unsupported_parameter") && includesSubCI errText (jstr "tool_choice")) then
          match respInner isLast cap fmts o.2 (some errText) with
          | (r, log, w, le) => (r, req :: log, w, le)
        else (none, [req], o.2, some errText)

/-- The outer `for (const cap of caps)` loop, `caps = [null, 512]`;
falling off the end raises the final `OpenAI error (responses)` error. -/
def respOuter : List (Option Nat) → List FetchOut → Option JStr → Except JStr JStr × List Request
  | [], _, lastErr =>
    (.error (jstr "OpenAI error (responses): " ++ lastErr.getD (jstr "unknown error")), [])
  | cap :: caps, world, lastErr =>
    match respInner (cap == some 512) cap [true, false] world lastErr with
    | (some r, log, _, _) => (r, log)
    | (none, log, world', lastErr') =>
      let rest := respOuter caps world' lastErr'
      (rest.1, log ++ rest.2)

/-- Embeds `summarizeWithOpenAIResponses` (background line 1229): validate the
headers, then run the variant loops.  `system` and `user` feed the
request body, which the oracle model does not inspect. -/
def summarizeWithOpenAIResponses (_system _user : JStr) (settings : Settings) (world : List FetchOut) :
    Except JStr JStr × List Request :=
  let key := trimWs settings.apiKey
  match validateHeaderByteString (jstr "Authorization") (jstr "Bearer " ++ key) with
  | some e => (.error e, [])
  | none =>
    match validateHeaderByteString (jstr "Content-Type") (jstr "application/json") with
    | some e => (.error e, [])
    | none => respOuter [none, some 512] world none

/-- Embeds `summarizeWithOpenAI` (background line 1168): missing-key guard,
GPT-5 dispatch to the responses API, otherwise one chat-completions call
with the 400/token-parameter fallback.  `world` is the prescribed
sequence of fetch outcomes; the second component is the list of requests
actually issued. -/
def summarizeWithOpenAI (text : JStr) (settings : Settings) (world : List FetchOut) :
    Except JStr JStr × List Request :=
  if settings.apiKey = [] then (.error msgNoKey, [])
  else
  let prompt := buildPrompt text settings
  if leadsWith (jstr "gpt-5") (lowerStr settings.model) then
    summarizeWithOpenAIResponses prompt.1 prompt.2 settings world
  else
    let key := trimWs settings.apiKey
    match validateHeaderByteString (jstr "Authorization") (jstr "Bearer " ++ key) with
    | some e => (.error e, [])
    | none =>
      match validateHeaderByteString (jstr "Content-Type") (jstr "application/json") with
      | some e => (.error e, [])
      | none =>
        let o := worldTake world
        match o.1 with
        | .thrown msg => (.error msg, [.chat])
        | .resp status p =>
          if 200 ≤ status ∧ status < 300 then
            match p.contentQ with
            | some c =>
              if c = [] then (.error msgNoSummary, [.chat])
              else (.ok (Background.sanitizeOneLine c), [.chat])
            | none => (.error msgNoSummary, [.chat])
          else
            if chatFallbackTrigger status p.body then
              let rest := summarizeWithOpenAIResponses prompt.1 prompt.2 settings o.2
              (rest.1, .chat :: rest.2)
            else
              (.error (jstr "OpenAI error (" ++ natToDigits status ++ jstr "): " ++ p.body), [.chat])

namespace ContentScript

/-- The non-ASCII-header message of `src/contentScript.js` line 1514: in
this file the typographic quotes and the ellipsis survive, so the fixed
message itself contains the non-ASCII code units U+201C, U+201D and
U+2026. -/
def headerNonAsciiMsg (name : JStr) : JStr :=
  jstr "Header \"" ++ name ++
  jstr "\" contains a non-ASCII character (e.g., “smart quotes” or an ellipsis). Re-copy your API key exactly from OpenAI (no …) and paste plain text."

/-- The over-long-key message of `src/contentScript.js` line 1521
(byte-identical to the background copy). -/
def apiKeyTooLongMsg : JStr := GNS.apiKeyTooLongMsg

/-- Embeds `validateHeaderByteString` of `src/contentScript.js` (line
1508): identical to the background copy except for the non-ASCII
guidance message text. -/
def validateHeaderByteString (name value : JStr) : Option JStr :=
  if value.any (fun c => 127 < c) then some (headerNonAsciiMsg name)
  else if lowerStr name = jstr "authorization" ∧ 200 < (stripBearer value).length
  then some apiKeyTooLongMsg
  else none

/-- The inner format loop of the content-script
`summarizeWithOpenAIResponses` (line 1421): identical to the background
copy except that it sanitizes with the content-script `sanitizeOneLine`. -/
def respInner (isLast : Bool) (cap : Option Nat) :
    List Bool → List FetchOut → Option JStr →
    Option (Except JStr JStr) × List Request × List FetchOut × Option JStr
  | [], world, lastErr => (none, [], world, lastErr)
  | fmt :: fmts, world, lastErr =>
    let o := worldTake world
    let req := Request.responses cap fmt
    match o.1 with
    | .thrown msg => (some (.error msg), [req], o.2, lastErr)
    | .resp status p =>
      if 200 ≤ status ∧ status < 300 then
        match p.contentQ with
        | some c =>
          if trimWs c = [] then
            if lowerStr p.statusField = jstr "incomplete" ∧ ¬isLast then
              (none, [req], o.2, lastErr)
            else (some (.error msgNoSummary), [req], o.2, lastErr)
          else (some (.ok (sanitizeOneLine c)), [req], o.2, lastErr)
        | none =>
          if lowerStr p.statusField = jstr "incomplete" ∧ ¬isLast then
            (none, [req], o.2, lastErr)
          else (some (.error msgNoSummary), [req], o.2, lastErr)
      else
        let errText := p.body
        if (includesSubCI errText (jstr "unsupported_parameter") && includesSubCI errText (jstr "text.format"))
           || (includesSubCI errText (jstr "unsupported_parameter") && includesSubCI errText (jstr "tool_choice")) then
          match respInner isLast cap fmts o.2 (some errText) with
          | (r, log, w, le) => (r, req :: log, w, le)
        else (none, [req], o.2, some errText)

/-- The outer cap loop of the content-script
`summarizeWithOpenAIResponses` (line 1426). -/
def respOuter : List (Option Nat) → List FetchOut → Option JStr → Except JStr JStr × List Request
  | [], _, lastErr =>
    (.error (jstr "OpenAI error (responses): " ++ lastErr.getD (jstr "unknown error")), [])
  | cap :: caps, world, lastErr =>
    match respInner (cap == some 512) cap [true, false] world lastErr with
    | (some r, log, _, _) => (r, log)
    | (none, log, world', lastErr') =>
      let rest := respOuter caps world' lastErr'
      (rest.1, log ++ rest.2)

/-- Embeds `summarizeWithOpenAIResponses` of `src/contentScript.js`
(line 1399). -/
def summarizeWithOpenAIResponses (_system _user : JStr) (settings : Settings)
    (world : List FetchOut) : Except JStr JStr × List Request :=
  let key := trimWs settings.apiKey
  match validateHeaderByteString (jstr "Authorization") (jstr "Bearer " ++ key) with
  | some e => (.error e, [])
  | none =>
    match validateHeaderByteString (jstr "Content-Type") (jstr "application/json") with
    | some e => (.error e, [])
    | none => respOuter [none, some 512] world none

/-- Embeds `summarizeWithOpenAI` of `src/contentScript.js` (line 1339):
identical control flow to the background copy; only the validator's
message text and the sanitizer's ellipsis marker differ. -/
def summarizeWithOpenAI (text : JStr) (settings : Settings) (world : List FetchOut) :
    Except JStr JStr × List Request :=
  if settings.apiKey = [] then (.error msgNoKey, [])
  else
  let prompt := buildPrompt text settings
  if leadsWith (jstr "gpt-5") (lowerStr settings.model) then
    summarizeWithOpenAIResponses prompt.1 prompt.2 settings world
  else
    let key := trimWs settings.apiKey
    match validateHeaderByteString (jstr "Authorization") (jstr "Bearer " ++ key) with
    | some e => (.error e, [])
    | none =>
      match validateHeaderByteString (jstr "Content-Type") (jstr "application/json") with
      | some e => (.error e, [])
      | none =>
        let o := worldTake world
        match o.1 with
        | .thrown msg => (.error msg, [.chat])
        | .resp status p =>
          if 200 ≤ status ∧ status < 300 then
            match p.contentQ with
            | some c =>
              if c = [] then (.error msgNoSummary, [.chat])
              else (.ok (sanitizeOneLine c), [.chat])
            | none => (.error msgNoSummary, [.chat])
          else
            if chatFallbackTrigger status p.body then
              let rest := summarizeWithOpenAIResponses prompt.1 prompt.2 settings o.2
              (rest.1, .chat :: rest.2)
            else
              (.error (jstr "OpenAI error (" ++ natToDigits status ++ jstr "): " ++ p.body), [.chat])

end ContentScript

/-! ### The two parse steps (content script line 1066, background
line 1490) -/

namespace ContentScript

/-- The `tryParse` helper of the content-script `extractTextFromUrl`
(line 1066): use `extractMainText` when it yields at least 400
characters, else `htmlToText` on the same HTML.  `dom` is the abstract
DOM outcome threaded to `extractMainText`. -/
def tryParse (dom : Option JStr) (html : JStr) : JStr :=
  let mainT := extractMainText dom
  if mainT ≠ [] ∧ 400 ≤ mainT.length then mainT else htmlToText html

end ContentScript

/-- Embeds `["'] ` -/
def isQuoteC : Nat → Bool := fun c => c == 34 || c == 39

def notQuoteC : Nat → Bool := fun c => !(c == 34 || c == 39)

/-- Embeds `/<title[^>]*>([^<]+)<\/title>/i` -/
def reTitle : List Re :=
  [.lit true (jstr "<title"), .star true ne62, .lit true (jstr ">"),
   .gOpen, .cls ne60, .star true ne60, .gClose, .lit true (jstr "</title>")]

/-- Embeds `/<meta[^>]*name=["']description["'][^>]*content=["']([^"']+)["'][^>]*>/i` -/
def reMetaDesc : List Re :=
  [.lit true (jstr "<meta"), .star true ne62, .lit true (jstr "name="), .cls isQuoteC,
   .lit true (jstr "description"), .cls isQuoteC, .star true ne62,
   .lit true (jstr "content="), .cls isQuoteC,
   .gOpen, .cls notQuoteC, .star true notQuoteC, .gClose,
   .cls isQuoteC, .star true ne62, .lit true (jstr ">")]

/-- Embeds `/<meta[^>]*property=["']og:description["'][^>]*content=["']([^"']+)["'][^>]*>/i` -/
def reOgDesc : List Re :=
  [.lit true (jstr "<meta"), .star true ne62, .lit true (jstr "property="), .cls isQuoteC,
   .lit true (jstr "og:description"), .cls isQuoteC, .star true ne62,
   .lit true (jstr "content="), .cls isQuoteC,
   .gOpen, .cls notQuoteC, .star true notQuoteC, .gClose,
   .cls isQuoteC, .star true ne62, .lit true (jstr ">")]

/-- Embeds `/<main[^>]*>([\s\S]*?)<\/main>/i` and friends. -/
def reBlockCapture (tag : String) : List Re :=
  [.lit true (jstr ("<" ++ tag)), .star true ne62, .lit true (jstr ">"),
   .gOpen, .star false anyC, .gClose, .lit true (jstr ("</" ++ tag ++ ">"))]

/-- Embeds `/<div[^>]*class=["'][^"']*NAME[^"']*["'][^>]*>([\s\S]*?)<\/div>/i` -/
def reDivClassCapture (name : String) : List Re :=
  [.lit true (jstr "<div"), .star true ne62, .lit true (jstr "class="), .cls isQuoteC,
   .star true notQuoteC, .lit true (jstr name), .star true notQuoteC, .cls isQuoteC,
   .star true ne62, .lit true (jstr ">"),
   .gOpen, .star false anyC, .gClose, .lit true (jstr "</div>")]

/-- The seven `contentSelectors` of the background `tryParse` (lines
1510-1518), in source order. -/
def bgContentSelectors : List (List Re) :=
  [reBlockCapture "main", reBlockCapture "article",
   reDivClassCapture "content", reDivClassCapture "post-content",
   reDivClassCapture "entry-content", reDivClassCapture "article-content",
   reDivClassCapture "story-content"]

/-- Embeds `/<[^>]*>/g` — the tag stripper used inside the background `tryParse`
(note the `*`: it also eats `<>`). -/
def reTagStar : List Re := [.lit true (jstr "<"), .star true ne62, .lit true (jstr ">")]

/-- Embeds `x.replace(/<[^>]*>/g, ' ').replace(/\s+/g, ' ').trim()` -/
def stripCollapseTrim (s : JStr) : JStr :=
  trimWs (collapseWs (replAll reTagStar (jstr " ") (s.length + 1) s))

/-- The selector loop of the background `tryParse`: first selector whose
(non-empty) capture strips and collapses to more than 200 characters. -/
def pickMainContent : List (List Re) → JStr → JStr
  | [], _ => []
  | sel :: sels, html =>
    match reFindCap sel (html.length + 1) html with
    | some capv =>
      if capv ≠ [] then
        let text := stripCollapseTrim capv
        if 200 < text.length then text else pickMainContent sels html
      else pickMainContent sels html
    | none => pickMainContent sels html

/-- Embeds `/\n+/g` -/
def reNewlinesPlus : List Re := [.cls (fun c => c == 10), .star true (fun c => c == 10)]

namespace Background

/-- Embeds `tryParse` of `src/background.js` (line 1490): a regex-based
title/meta-description/OG-description/body heuristic (no `DOMParser` in
the service worker), with a title prefix and a raw-text last resort. -/
def tryParse (html : JStr) : JStr :=
  let title := match reFindCap reTitle (html.length + 1) html with
    | some t => trimWs t
    | none => []
  let metaDesc := match reFindCap reMetaDesc (html.length + 1) html with
    | some t => trimWs t
    | none => []
  let ogDesc := match reFindCap reOgDesc (html.length + 1) html with
    | some t => trimWs t
    | none => []
  let mainContent := pickMainContent bgContentSelectors html
  let bodyContent := match reFindCap (reBlockCapture "body") (html.length + 1) html with
    | some b => stripCollapseTrim b
    | none => []
  let combined :=
    if mainContent ≠ [] ∧ 200 < mainContent.length then mainContent
    else if metaDesc ≠ [] ∧ 100 < metaDesc.length then metaDesc
    else if ogDesc ≠ [] ∧ 100 < ogDesc.length then ogDesc
    else if bodyContent ≠ [] ∧ 200 < bodyContent.length then bodyContent
    else []
  if combined ≠ [] then
    let c1 := collapseWs combined
    let c2 := trimWs (replAll reNewlinesPlus (jstr " ") (c1.length + 1) c1)
    if title ≠ [] ∧ includesSub c2 title = false then title ++ jstr ". " ++ c2 else c2
  else if title ≠ [] ∨ metaDesc ≠ [] ∨ ogDesc ≠ [] then
    List.intercalate (jstr ". ") ([title, metaDesc, ogDesc].filter (fun x => x ≠ []))
  else
    let textContent := stripCollapseTrim html
    if 100 < textContent.length then textContent.take 2000 else []

end Background

/-- A probe attempt that qualifies in `probeExternalRedirect`: a 3xx
response with a non-empty `Location` whose absolutization succeeds and
passes `isLikelyArticleUrl`. -/
def qualifiesProbe (resolveUrl : JStr → Option Url) (a : ProbeFetch) : Prop :=
  ∃ st l u, a = .resp st (some l) ∧ 300 ≤ st ∧ st < 400 ∧ l ≠ [] ∧
    resolveUrl l = some u ∧ isLikelyArticleUrl (some u) = true

/-- Concrete HTML fixture: a title, and a body of 210 letters. -/
def fixtureHtml : JStr := jstr "<title>T</title><body>" ++ List.replicate 210 97 ++ jstr "</body>"

/-- A candidate URL on a blacklisted host. -/
def fixtureBadUrl : Url :=
  { href := jstr "https://www.w3.org/TR/html52/", host := jstr "www.w3.org", path := jstr "/TR/html52/" }

/-- A candidate URL that passes admission. -/
def fixtureGoodUrl : Url :=
  { href := jstr "https://publisher.example/2025/08/14/story-title",
    host := jstr "publisher.example", path := jstr "/2025/08/14/story-title" }

/-- A concrete absolutizer for the probe witness. -/
def fixtureResolve : JStr → Option Url := fun l =>
  some { href := l, host := jstr "publisher.example", path := jstr "/2025/08/14/story-title" }

end GNS

namespace GNS

/-! ## Auxiliary lemmas -/

theorem leadsWith_self : ∀ s : JStr, leadsWith s s = true
  | [] => rfl
  | a :: l => by simp [leadsWith, leadsWith_self l]

theorem includesSub_self (s : JStr) : includesSub s s = true := by
  cases s with
  | nil => rfl
  | cons a l => simp [includesSub, includesFrom, leadsWith_self]

theorem noTwoSpaces_tail {c : Nat} {t : JStr} (h : noTwoSpaces (c :: t) = true) :
    noTwoSpaces t = true := by
  cases t with
  | nil => rfl
  | cons b t' =>
    simp only [noTwoSpaces, Bool.and_eq_true] at h
    exact h.2

theorem noTwoSpaces_append_left : ∀ (l t : JStr), noTwoSpaces (l ++ t) = true → noTwoSpaces l = true
  | [], _, _ => rfl
  | [_], _, _ => rfl
  | a :: b :: l, t, h => by
    simp only [List.cons_append, noTwoSpaces, Bool.and_eq_true] at h ⊢
    exact ⟨h.1, noTwoSpaces_append_left (b :: l) t h.2⟩

theorem noTwoSpaces_append_right : ∀ (t l : JStr), noTwoSpaces (t ++ l) = true → noTwoSpaces l = true
  | [], _, h => h
  | c :: t, l, h => by
    simp only [List.cons_append] at h
    exact noTwoSpaces_append_right t l (noTwoSpaces_tail h)

theorem noTwoSpaces_snoc : ∀ (l : JStr) (c : Nat), noTwoSpaces l = true → (c == 32) = false →
    noTwoSpaces (l ++ [c]) = true
  | [], c, _, _ => rfl
  | [a], c, _, hc => by simp [noTwoSpaces, hc]
  | a :: b :: l, c, h, hc => by
    simp only [noTwoSpaces, Bool.and_eq_true] at h
    simp only [List.cons_append, noTwoSpaces, Bool.and_eq_true]
    exact ⟨h.1, noTwoSpaces_snoc (b :: l) c h.2 hc⟩

theorem dropLeadWs_suffix : ∀ s : JStr, ∃ t, s = t ++ dropLeadWs s
  | [] => ⟨[], rfl⟩
  | c :: s => by
    by_cases hw : isJsWs c
    · obtain ⟨t, ht⟩ := dropLeadWs_suffix s
      exact ⟨c :: t, by simpa [dropLeadWs, List.dropWhile_cons, hw] using congrArg (c :: ·) ht⟩
    · exact ⟨[], by simp [dropLeadWs, List.dropWhile_cons, hw]⟩

theorem dropTrailWs_decomp : ∀ s : JStr, ∃ t, s = dropTrailWs s ++ t
  | [] => ⟨[], rfl⟩
  | c :: s => by
    obtain ⟨t, ht⟩ := dropTrailWs_decomp s
    by_cases h0 : dropTrailWs s = []
    · by_cases hw : isJsWs c
      · exact ⟨c :: s, by simp [dropTrailWs, h0, hw]⟩
      · refine ⟨s, ?_⟩
        simp [dropTrailWs, h0, hw]
    · refine ⟨t, ?_⟩
      cases hds : dropTrailWs s with
      | nil => exact absurd hds h0
      | cons r rs =>
        have heq : dropTrailWs (c :: s) = c :: (r :: rs) := by
          simp [dropTrailWs, hds]
        rw [heq, List.cons_append, ← hds, ← ht]

theorem trimWs_decomp (s : JStr) : ∃ a b, s = a ++ (trimWs s ++ b) := by
  obtain ⟨a, ha⟩ := dropLeadWs_suffix s
  obtain ⟨b, hb⟩ := dropTrailWs_decomp (dropLeadWs s)
  refine ⟨a, b, ?_⟩
  calc s = a ++ dropLeadWs s := ha
  _ = a ++ (dropTrailWs (dropLeadWs s) ++ b) := by rw [← hb]
  _ = a ++ (trimWs s ++ b) := by rw [trimWs]

theorem noTwoSpaces_take (s : JStr) (n : Nat) (h : noTwoSpaces s = true) :
    noTwoSpaces (s.take n) = true :=
  noTwoSpaces_append_left _ (s.drop n) (by rwa [List.take_append_drop])

theorem noTwoSpaces_trimWs (s : JStr) (h : noTwoSpaces s = true) :
    noTwoSpaces (trimWs s) = true := by
  obtain ⟨a, b, hd⟩ := trimWs_decomp s
  rw [hd] at h
  exact noTwoSpaces_append_left _ b (noTwoSpaces_append_right a _ h)

theorem mem_of_mem_trimWs {s : JStr} {c : Nat} (hc : c ∈ trimWs s) : c ∈ s := by
  obtain ⟨a, b, hd⟩ := trimWs_decomp s
  rw [hd]
  simp [hc]

theorem wsOnlySpace_take (s : JStr) (n : Nat) (h : wsOnlySpace s = true) :
    wsOnlySpace (s.take n) = true := by
  rw [wsOnlySpace, List.all_eq_true] at h ⊢
  intro c hc
  exact h c (List.mem_of_mem_take hc)

theorem wsOnlySpace_trimWs (s : JStr) (h : wsOnlySpace s = true) :
    wsOnlySpace (trimWs s) = true := by
  rw [wsOnlySpace, List.all_eq_true] at h ⊢
  intro c hc
  exact h c (mem_of_mem_trimWs hc)

theorem trimWs_length_le (s : JStr) : (trimWs s).length ≤ s.length := by
  obtain ⟨a, b, hd⟩ := trimWs_decomp s
  conv_rhs => rw [hd]
  simp only [List.length_append]
  omega

theorem wsOnly_collapseAux : ∀ (b : Bool) (s : JStr), wsOnlySpace (collapseWsAux b s) = true
  | _, [] => rfl
  | b, c :: s => by
    by_cases hw : isJsWs c
    · cases b with
      | true => simpa [collapseWsAux, hw] using wsOnly_collapseAux true s
      | false =>
        simp only [collapseWsAux, hw, if_true, Bool.false_eq_true, if_false]
        simpa [wsOnlySpace] using (by simpa [wsOnlySpace] using wsOnly_collapseAux true s)
    · simp only [collapseWsAux, hw, if_false]
      simpa [wsOnlySpace, hw] using wsOnly_collapseAux false s

theorem collapseAux_true_not_space : ∀ (s : JStr) (c : Nat) (t : JStr),
    collapseWsAux true s = c :: t → (c == 32) = false
  | [], c, t, h => by simp [collapseWsAux] at h
  | d :: s, c, t, h => by
    by_cases hw : isJsWs d
    · exact collapseAux_true_not_space s c t (by simpa [collapseWsAux, hw] using h)
    · simp only [collapseWsAux, hw, if_false] at h
      have hd : d = c := (List.cons.injEq _ _ _ _ ▸ h).1
      subst hd
      have : isJsWs 32 = true := by decide
      simp only [beq_eq_false_iff_ne, ne_eq]
      intro hcc
      rw [hcc] at hw
      exact hw this

theorem noTwo_collapseAux : ∀ (b : Bool) (s : JStr), noTwoSpaces (collapseWsAux b s) = true
  | _, [] => rfl
  | b, c :: s => by
    by_cases hw : isJsWs c
    · cases b with
      | true => simpa [collapseWsAux, hw] using noTwo_collapseAux true s
      | false =>
        simp only [collapseWsAux, hw, if_true, Bool.false_eq_true, if_false]
        cases hx : collapseWsAux true s with
        | nil => rfl
        | cons x t =>
          have hx32 : (x == 32) = false := collapseAux_true_not_space s x t hx
          have ht : noTwoSpaces (x :: t) = true := by rw [← hx]; exact noTwo_collapseAux true s
          simp [noTwoSpaces, hx32, ht]
    · simp only [collapseWsAux, hw, if_false]
      cases hx : collapseWsAux false s with
      | nil => rfl
      | cons x t =>
        have hc32 : (c == 32) = false := by
          have : isJsWs 32 = true := by decide
          simp only [beq_eq_false_iff_ne, ne_eq]
          intro hcc
          rw [hcc] at hw
          exact hw this
        have ht : noTwoSpaces (x :: t) = true := by rw [← hx]; exact noTwo_collapseAux false s
        simp [noTwoSpaces, hc32, ht]

theorem wsOnly_collapseWs (s : JStr) : wsOnlySpace (collapseWs s) = true :=
  wsOnly_collapseAux false s

theorem noTwo_collapseWs (s : JStr) : noTwoSpaces (collapseWs s) = true :=
  noTwo_collapseAux false s

/-- The invariants of the final `replace(/\s+/g,' ').trim()` +
`slice(0, n)` stage shared by `htmlToText`, `extractMainText` and
`sanitizeOneLine`. -/
theorem finalStage (x : JStr) (n : Nat) :
    noTwoSpaces ((trimWs (collapseWs x)).take n) = true ∧
    wsOnlySpace ((trimWs (collapseWs x)).take n) = true ∧
    ((trimWs (collapseWs x)).take n).length ≤ n := by
  refine ⟨?_, ?_, ?_⟩
  · exact noTwoSpaces_take _ n (noTwoSpaces_trimWs _ (noTwo_collapseWs x))
  · exact wsOnlySpace_take _ n (wsOnlySpace_trimWs _ (wsOnly_collapseWs x))
  · exact (List.length_take _ _).le.trans (Nat.min_le_left _ _)

theorem wsOnlySpace_append (l r : JStr) :
    wsOnlySpace (l ++ r) = (wsOnlySpace l && wsOnlySpace r) := by
  simp [wsOnlySpace]

theorem wsOnly_noNewline (s : JStr) (h : wsOnlySpace s = true) :
    s.all (fun c => !(c == 10)) = true := by
  rw [wsOnlySpace, List.all_eq_true] at h
  rw [List.all_eq_true]
  intro c hc
  have := h c hc
  simp only [Bool.or_eq_true, Bool.not_eq_true'] at this
  rcases this with h1 | h2
  · simp only [Bool.not_eq_true', beq_eq_false_iff_ne, ne_eq]
    intro hc10
    rw [hc10] at h1
    exact absurd h1 (by decide)
  · simp only [beq_iff_eq] at h2
    subst h2
    decide

theorem dropLead_head_not_ws : ∀ (s : JStr) {c : Nat} {t : JStr},
    dropLeadWs s = c :: t → isJsWs c = false
  | [], _, _, h => by simp [dropLeadWs] at h
  | d :: s, c, t, h => by
    by_cases hw : isJsWs d
    · exact dropLead_head_not_ws s (by simpa [dropLeadWs, List.dropWhile_cons, hw] using h)
    · simp only [dropLeadWs, List.dropWhile_cons, hw, Bool.false_eq_true, if_false] at h
      injection h with h1 _
      rw [← h1]
      exact Bool.eq_false_iff.mpr hw

theorem dropTrail_head : ∀ (s : JStr) {c : Nat} {t : JStr},
    dropTrailWs s = c :: t → ∃ t', s = c :: t'
  | [], _, _, h => by simp [dropTrailWs] at h
  | d :: s, c, t, h => by
    refine ⟨s, ?_⟩
    cases hds : dropTrailWs s with
    | nil =>
      simp only [dropTrailWs, hds] at h
      by_cases hw : isJsWs d
      · simp [hw] at h
      · simp only [hw, Bool.false_eq_true, if_false] at h
        injection h with h1 _
        rw [h1]
    | cons r rs =>
      simp only [dropTrailWs, hds] at h
      injection h with h1 _
      rw [h1]

theorem trim_head_not_ws (s : JStr) {c : Nat} {t : JStr} (h : trimWs s = c :: t) :
    isJsWs c = false := by
  obtain ⟨t', ht'⟩ := dropTrail_head (dropLeadWs s) h
  exact dropLead_head_not_ws s ht'

theorem dropLeadWs_trimWs (s : JStr) : dropLeadWs (trimWs s) = trimWs s := by
  cases h : trimWs s with
  | nil => rfl
  | cons c t =>
    have := trim_head_not_ws s h
    simp [dropLeadWs, List.dropWhile_cons, this]

theorem stripBearer_key (x : JStr) :
    stripBearer (jstr "Bearer " ++ trimWs x) = trimWs x := by
  have ht : (jstr "Bearer " ++ trimWs x).take 6 = jstr "Bearer" := rfl
  have hd : (jstr "Bearer " ++ trimWs x).drop 6 = 32 :: trimWs x := rfl
  have hcond : lowerStr ((jstr "Bearer " ++ trimWs x).take 6) = jstr "bearer" := by
    rw [ht]
    decide
  rw [stripBearer, if_pos]
  · rw [hd]
    have : isJsWs 32 = true := by decide
    rw [List.dropWhile_cons, if_pos this]
    exact dropLeadWs_trimWs x
  · refine ⟨hcond, ?_⟩
    rw [hd]
    have : isJsWs 32 = true := by decide
    simp [List.takeWhile_cons, this]

/-! ## Claims -/

/-- C1 (counterexample): on a raw output of 201 letters `a`, the
content-script `sanitizeOneLine` returns 200 letters plus the ellipsis —
201 characters, exceeding the claimed 200-character bound — while the
background copy returns exactly 200 letters with no ellipsis marker at
all, contradicting the claimed marker. -/
theorem c1_counterexample :
    (ContentScript.sanitizeOneLine (List.replicate 201 97)).length = 201 ∧
    Background.sanitizeOneLine (List.replicate 201 97) = List.replicate 200 97 := by
  constructor
  · decide
  · decide

/-- C1 (amended): for every raw model-output string, both copies of
`sanitizeOneLine` return a whitespace-collapsed, trimmed, newline-free
string; the content-script copy appends a single ellipsis marker exactly
when the collapsed output exceeds the 200-character cap, and its result
is at most 201 characters (200 content characters plus the marker); the
background copy appends nothing on overflow and stays within 200
characters. -/
theorem c1_amended_theorem (s : JStr) :
    wsOnlySpace (ContentScript.sanitizeOneLine s) = true ∧
    noTwoSpaces (ContentScript.sanitizeOneLine s) = true ∧
    (ContentScript.sanitizeOneLine s).all (fun c => !(c == 10)) = true ∧
    (ContentScript.sanitizeOneLine s).length ≤ 201 ∧
    ContentScript.sanitizeOneLine s =
      (if 200 < (trimWs (collapseWs s)).length
       then trimWs ((trimWs (collapseWs s)).take 200) ++ [ellipsisCode]
       else trimWs (collapseWs s)) ∧
    Background.sanitizeOneLine s =
      (if 200 < (trimWs (collapseWs s)).length
       then trimWs ((trimWs (collapseWs s)).take 200)
       else trimWs (collapseWs s)) ∧
    (Background.sanitizeOneLine s).length ≤ 200 := by
  have h1 : noTwoSpaces (trimWs (collapseWs s)) = true :=
    noTwoSpaces_trimWs _ (noTwo_collapseWs s)
  have h2 : wsOnlySpace (trimWs (collapseWs s)) = true :=
    wsOnlySpace_trimWs _ (wsOnly_collapseWs s)
  by_cases hl : 200 < (trimWs (collapseWs s)).length
  · have hcs : ContentScript.sanitizeOneLine s =
        trimWs ((trimWs (collapseWs s)).take 200) ++ [ellipsisCode] := by
      simp [ContentScript.sanitizeOneLine, hl]
    have hbg : Background.sanitizeOneLine s = trimWs ((trimWs (collapseWs s)).take 200) := by
      simp [Background.sanitizeOneLine, hl]
    have hbnt : noTwoSpaces (trimWs ((trimWs (collapseWs s)).take 200)) = true :=
      noTwoSpaces_trimWs _ (noTwoSpaces_take _ 200 h1)
    have hbws : wsOnlySpace (trimWs ((trimWs (collapseWs s)).take 200)) = true :=
      wsOnlySpace_trimWs _ (wsOnlySpace_take _ 200 h2)
    have hblen : (trimWs ((trimWs (collapseWs s)).take 200)).length ≤ 200 :=
      (trimWs_length_le _).trans ((List.length_take _ _).le.trans (Nat.min_le_left _ _))
    have hcsws : wsOnlySpace (ContentScript.sanitizeOneLine s) = true := by
      rw [hcs, wsOnlySpace_append, hbws]
      decide
    refine ⟨hcsws, ?_, wsOnly_noNewline _ hcsws, ?_, ?_, ?_, ?_⟩
    · rw [hcs]
      exact noTwoSpaces_snoc _ _ hbnt (by decide)
    · rw [hcs, List.length_append]
      simpa using hblen
    · rw [if_pos hl]
      exact hcs
    · rw [if_pos hl]
      exact hbg
    · rw [hbg]
      exact hblen
  · have hcs : ContentScript.sanitizeOneLine s = trimWs (collapseWs s) := by
      simp [ContentScript.sanitizeOneLine, hl]
    have hbg : Background.sanitizeOneLine s = trimWs (collapseWs s) := by
      simp [Background.sanitizeOneLine, hl]
    have hlen : (trimWs (collapseWs s)).length ≤ 200 := Nat.le_of_not_lt hl
    refine ⟨?_, ?_, ?_, ?_, ?_, ?_, ?_⟩
    · rw [hcs]; exact h2
    · rw [hcs]; exact h1
    · rw [hcs]; exact wsOnly_noNewline _ h2
    · rw [hcs]; omega
    · rw [if_neg hl]; exact hcs
    · rw [if_neg hl]; exact hbg
    · rw [hbg]; exact hlen

/-- C2 (counterexample): on the input `">"` — a `>` that is part of no
complete tag — `htmlToText` returns `">"` unchanged, so the output can
contain the character `>`. -/
theorem c2_counterexample :
    htmlToText (jstr ">") = jstr ">" ∧ 62 ∈ htmlToText (jstr ">") := by
  constructor
  · decide
  · decide

/-- C2 (amended): for every input string, the output of `htmlToText`
contains no run of two or more consecutive spaces, and every whitespace
code unit in it is a plain space (in particular there is no newline and
no tab); stray `<` and `>` characters that do not form a complete
`<...>` tag can however survive. -/
theorem c2_amended_theorem (html : JStr) :
    noTwoSpaces (htmlToText html) = true ∧
    wsOnlySpace (htmlToText html) = true ∧
    (htmlToText html).length ≤ 20000 := by
  by_cases h : html = []
  · subst h
    refine ⟨by decide, by decide, by decide⟩
  · refine ⟨?_, ?_, ?_⟩
    · unfold htmlToText
      rw [if_neg h]
      show noTwoSpaces ((trimWs (collapseWs _)).take 20000) = true
      exact (finalStage _ _).1
    · unfold htmlToText
      rw [if_neg h]
      show wsOnlySpace ((trimWs (collapseWs _)).take 20000) = true
      exact (finalStage _ _).2.1
    · unfold htmlToText
      rw [if_neg h]
      show ((trimWs (collapseWs _)).take 20000).length ≤ 20000
      exact (finalStage _ _).2.2

/-- C3: the fallback path `htmlToText` never returns more than 20,000
characters, and the main-content path `extractMainText` never returns
more than 30,000 characters, for any input and any DOM outcome. -/
theorem c3_theorem :
    (∀ html : JStr, (htmlToText html).length ≤ 20000) ∧
    (∀ dom : Option JStr, (extractMainText dom).length ≤ 30000) := by
  constructor
  · intro html
    by_cases h : html = []
    · subst h
      decide
    · unfold htmlToText
      rw [if_neg h]
      show ((trimWs (collapseWs _)).take 20000).length ≤ 20000
      exact (finalStage _ _).2.2
  · intro dom
    cases dom with
    | none => decide
    | some raw => exact (finalStage raw 30000).2.2

theorem bgValidate_nonAscii (key : JStr) (c : Nat) (hc : c ∈ key) (hc127 : 127 < c) :
    validateHeaderByteString (jstr "Authorization") (jstr "Bearer " ++ key) =
      some (headerNonAsciiMsg (jstr "Authorization")) := by
  rw [validateHeaderByteString, if_pos]
  rw [List.any_eq_true]
  exact ⟨c, List.mem_append_right _ hc, by simpa using hc127⟩

theorem csValidate_nonAscii (key : JStr) (c : Nat) (hc : c ∈ key) (hc127 : 127 < c) :
    ContentScript.validateHeaderByteString (jstr "Authorization") (jstr "Bearer " ++ key) =
      some (ContentScript.headerNonAsciiMsg (jstr "Authorization")) := by
  rw [ContentScript.validateHeaderByteString, if_pos]
  rw [List.any_eq_true]
  exact ⟨c, List.mem_append_right _ hc, by simpa using hc127⟩

theorem bearerKey_all_ascii (x : JStr) (hall : ∀ c ∈ trimWs x, ¬ 127 < c) :
    ((jstr "Bearer " ++ trimWs x).any fun c => decide (127 < c)) = false := by
  rw [List.any_eq_false]
  intro c hc
  rcases List.mem_append.mp hc with hb | hk
  · have hbb : ∀ d ∈ jstr "Bearer ", ¬ 127 < d := by decide
    simpa using hbb c hb
  · simpa using hall c hk

theorem bgValidate_tooLong (x : JStr) (hall : ∀ c ∈ trimWs x, ¬ 127 < c)
    (hlen : 200 < (trimWs x).length) :
    validateHeaderByteString (jstr "Authorization") (jstr "Bearer " ++ trimWs x) =
      some apiKeyTooLongMsg := by
  rw [validateHeaderByteString, if_neg (by simp [bearerKey_all_ascii x hall]), if_pos]
  refine ⟨by decide, ?_⟩
  rw [stripBearer_key]
  exact hlen

theorem csValidate_tooLong (x : JStr) (hall : ∀ c ∈ trimWs x, ¬ 127 < c)
    (hlen : 200 < (trimWs x).length) :
    ContentScript.validateHeaderByteString (jstr "Authorization") (jstr "Bearer " ++ trimWs x) =
      some ContentScript.apiKeyTooLongMsg := by
  rw [ContentScript.validateHeaderByteString, if_neg (by simp [bearerKey_all_ascii x hall]), if_pos]
  refine ⟨by decide, ?_⟩
  rw [stripBearer_key]
  exact hlen

theorem bgEngine_error_of_validate (text : JStr) (settings : Settings) (world : List FetchOut)
    (m : JStr) (hapi : ¬ settings.apiKey = [])
    (hv : validateHeaderByteString (jstr "Authorization")
        (jstr "Bearer " ++ trimWs settings.apiKey) = some m) :
    summarizeWithOpenAI text settings world = (Except.error m, []) := by
  simp only [summarizeWithOpenAI, hapi, if_false]
  split
  · simp [summarizeWithOpenAIResponses, hv]
  · simp [hv]

theorem csEngine_error_of_validate (text : JStr) (settings : Settings) (world : List FetchOut)
    (m : JStr) (hapi : ¬ settings.apiKey = [])
    (hv : ContentScript.validateHeaderByteString (jstr "Authorization")
        (jstr "Bearer " ++ trimWs settings.apiKey) = some m) :
    ContentScript.summarizeWithOpenAI text settings world = (Except.error m, []) := by
  simp only [ContentScript.summarizeWithOpenAI, hapi, if_false]
  split
  · simp [ContentScript.summarizeWithOpenAIResponses, hv]
  · simp [hv]

/-- C4 (counterexample): two refutations, one per cited copy.  In both
copies an apiKey ending in a non-breaking space (code 160 > 127)
contains a character above 127, yet `summarize` does not fail fast:
`trim()` removes the offending character before validation, the chat
request is issued and the call succeeds.  And in the content-script
copy, whose guidance message retains the literal typographic quotes and
ellipsis, the apiKey `"…"` (code 8230 > 127) does make `summarize`
throw before any request — but the raised message literally contains
that apiKey value. -/
theorem c4_counterexample :
    ((∃ c ∈ ({ apiKey := [107, 160], model := jstr "m", systemPrompt := [] } : Settings).apiKey,
        127 < c) ∧
     summarizeWithOpenAI (jstr "text")
        { apiKey := [107, 160], model := jstr "m", systemPrompt := [] }
        [FetchOut.resp 200 { contentQ := some (jstr "ok"), statusField := [], body := [] }] =
      (Except.ok (jstr "ok"), [Request.chat])) ∧
    ((∃ c ∈ ({ apiKey := jstr "…", model := jstr "m", systemPrompt := [] } : Settings).apiKey,
        127 < c) ∧
     ContentScript.summarizeWithOpenAI (jstr "text")
        { apiKey := jstr "…", model := jstr "m", systemPrompt := [] } [] =
      (Except.error (ContentScript.headerNonAsciiMsg (jstr "Authorization")), []) ∧
     ∃ a b, ContentScript.headerNonAsciiMsg (jstr "Authorization") = a ++ jstr "…" ++ b) := by
  refine ⟨⟨by decide, by rfl⟩, by decide, by rfl, ?_⟩
  exact ⟨jstr "Header \"Authorization\" contains a non-ASCII character (e.g., “smart quotes” or an ellipsis). Re-copy your API key exactly from OpenAI (no ",
         jstr ") and paste plain text.", by decide⟩

/-- C4 (amended): for every settings whose TRIMMED apiKey contains a
character above 127, or whose trimmed Bearer-stripped apiKey is longer
than 200 characters, both copies of `summarize` raise one of their two
fixed guidance messages before any HTTP request is issued (the request
log is empty); the messages are constants into which no part of the key
is interpolated.  In the background copy the raised message moreover
never contains the trimmed apiKey value; in the content-script copy this
containment guarantee holds whenever the over-long branch applies (its
non-ASCII message itself contains `“`, `”` and `…`, so a short key made
of its own characters can occur in it as a substring). -/
theorem c4_amended_theorem (text : JStr) (settings : Settings) (world : List FetchOut)
    (h : (∃ c ∈ trimWs settings.apiKey, 127 < c) ∨ 200 < (trimWs settings.apiKey).length) :
    (∃ m, summarizeWithOpenAI text settings world = (Except.error m, []) ∧
       (m = headerNonAsciiMsg (jstr "Authorization") ∨ m = apiKeyTooLongMsg) ∧
       ¬ ∃ a b, m = a ++ trimWs settings.apiKey ++ b) ∧
    (∃ m, ContentScript.summarizeWithOpenAI text settings world = (Except.error m, []) ∧
       (m = ContentScript.headerNonAsciiMsg (jstr "Authorization") ∨
        m = ContentScript.apiKeyTooLongMsg) ∧
       (200 < (trimWs settings.apiKey).length →
         ¬ ∃ a b, m = a ++ trimWs settings.apiKey ++ b)) := by
  have hkey_ne : trimWs settings.apiKey ≠ [] := by
    rcases h with ⟨c, hc, _⟩ | hlen
    · exact List.ne_nil_of_mem hc
    · intro he
      rw [he] at hlen
      simp at hlen
  have hapi : ¬ settings.apiKey = [] := by
    intro he
    apply hkey_ne
    rw [he]
    rfl
  by_cases hany : ∃ c ∈ trimWs settings.apiKey, 127 < c
  · obtain ⟨c, hc, hc127⟩ := hany
    constructor
    · refine ⟨headerNonAsciiMsg (jstr "Authorization"),
        bgEngine_error_of_validate text settings world _ hapi
          (bgValidate_nonAscii _ c hc hc127), Or.inl rfl, ?_⟩
      rintro ⟨a, b, hm⟩
      have hcm : c ∈ headerNonAsciiMsg (jstr "Authorization") := by
        rw [hm]
        simp [hc]
      have hall : ∀ d ∈ headerNonAsciiMsg (jstr "Authorization"), d ≤ 127 := by decide
      exact absurd (hall c hcm) (by omega)
    · refine ⟨ContentScript.headerNonAsciiMsg (jstr "Authorization"),
        csEngine_error_of_validate text settings world _ hapi
          (csValidate_nonAscii _ c hc hc127), Or.inl rfl, ?_⟩
      intro hlen
      rintro ⟨a, b, hm⟩
      have hlm : (ContentScript.headerNonAsciiMsg (jstr "Authorization")).length ≤ 200 := by
        decide
      rw [hm] at hlm
      simp only [List.length_append] at hlm
      omega
  · have hlen : 200 < (trimWs settings.apiKey).length := by
      rcases h with hx | hl
      · exact absurd hx hany
      · exact hl
    have hall : ∀ c ∈ trimWs settings.apiKey, ¬ 127 < c := by
      intro c hc h127
      exact hany ⟨c, hc, h127⟩
    constructor
    · refine ⟨apiKeyTooLongMsg,
        bgEngine_error_of_validate text settings world _ hapi
          (bgValidate_tooLong _ hall hlen), Or.inr rfl, ?_⟩
      rintro ⟨a, b, hm⟩
      have hlm : apiKeyTooLongMsg.length ≤ 200 := by decide
      rw [hm] at hlm
      simp only [List.length_append] at hlm
      omega
    · refine ⟨ContentScript.apiKeyTooLongMsg,
        csEngine_error_of_validate text settings world _ hapi
          (csValidate_tooLong _ hall hlen), Or.inr rfl, ?_⟩
      intro _
      rintro ⟨a, b, hm⟩
      have hlm : ContentScript.apiKeyTooLongMsg.length ≤ 200 := by decide
      rw [hm] at hlm
      simp only [List.length_append] at hlm
      omega

theorem validateCT :
    validateHeaderByteString (jstr "Content-Type") (jstr "application/json") = none := by
  decide

theorem respInner_no_chat : ∀ (isLast : Bool) (cap : Option Nat) (fmts : List Bool)
    (world : List FetchOut) (le : Option JStr),
    ((respInner isLast cap fmts world le).2.1.all fun r => !(r == Request.chat)) = true
  | _, _, [], _, _ => rfl
  | isLast, cap, fmt :: fmts, world, le => by
    have hne : (Request.responses cap fmt == Request.chat) = false := rfl
    simp only [respInner]
    split
    · simp [hne]
    · split
      · split
        · split
          · split
            · simp [hne]
            · simp [hne]
          · simp [hne]
        · split
          · simp [hne]
          · simp [hne]
      · split
        · rename_i st p heq hnok hcond
          have ih := respInner_no_chat isLast cap fmts (worldTake world).2 (some p.body)
          simp only [List.all_cons, hne, Bool.not_false, Bool.true_and]
          exact ih
        · simp [hne]

theorem respOuter_no_chat : ∀ (caps : List (Option Nat)) (world : List FetchOut)
    (le : Option JStr),
    ((respOuter caps world le).2.all fun r => !(r == Request.chat)) = true
  | [], _, _ => rfl
  | cap :: caps, world, le => by
    simp only [respOuter]
    have ih1 := respInner_no_chat (cap == some 512) cap [true, false] world le
    cases hrec : respInner (cap == some 512) cap [true, false] world le with
    | mk r rest =>
      rw [hrec] at ih1
      match r, rest with
      | some res, (log, w, le') =>
        simpa using ih1
      | none, (log, w, le') =>
        have ih2 := respOuter_no_chat caps w le'
        simp only [List.all_append]
        simp only at ih1
        rw [ih1, ih2]
        rfl

theorem summarizeResponses_no_chat (s u : JStr) (settings : Settings) (world : List FetchOut) :
    ((summarizeWithOpenAIResponses s u settings world).2.all fun r => !(r == Request.chat)) = true := by
  rw [summarizeWithOpenAIResponses]
  split
  · rfl
  · split
    · rfl
    · exact respOuter_no_chat _ _ _

/-- C5: for every input text and settings whose lower-cased model name
starts with `gpt-5`, `summarize` dispatches to the structured-response
path and never issues a chat-shape request, over any sequence of
provider outcomes; for every other model name, any request it issues at
all starts with the chat-shape request (with valid credentials the first
request issued is always the chat one). -/
theorem c5_theorem :
    (∀ (text : JStr) (settings : Settings) (world : List FetchOut),
      leadsWith (jstr "gpt-5") (lowerStr settings.model) = true →
      ((summarizeWithOpenAI text settings world).2.all fun r => !(r == Request.chat)) = true) ∧
    (∀ (text : JStr) (settings : Settings) (world : List FetchOut),
      leadsWith (jstr "gpt-5") (lowerStr settings.model) = false →
      settings.apiKey ≠ [] →
      validateHeaderByteString (jstr "Authorization")
        (jstr "Bearer " ++ trimWs settings.apiKey) = none →
      (summarizeWithOpenAI text settings world).2.head? = some Request.chat) := by
  constructor
  · intro text settings world hm
    by_cases hapi : settings.apiKey = []
    · simp [summarizeWithOpenAI, hapi]
    · simp only [summarizeWithOpenAI, hapi, if_false, hm, if_true]
      exact summarizeResponses_no_chat _ _ _ _
  · intro text settings world hm hapi hva
    simp only [summarizeWithOpenAI, hapi, if_false, hm, Bool.false_eq_true, hva, validateCT]
    repeat' split
    all_goals rfl

/-- C5 (witness): `GPT-5-nano` (any casing) never produces a chat-shape
request; `gpt-4o` with a valid key issues the chat request first. -/
theorem c5_witness :
    (leadsWith (jstr "gpt-5") (lowerStr (jstr "GPT-5-nano")) = true ∧
     ((summarizeWithOpenAI (jstr "t")
         { apiKey := jstr "k", model := jstr "GPT-5-nano", systemPrompt := [] }
         []).2.all fun r => !(r == Request.chat)) = true) ∧
    (leadsWith (jstr "gpt-5") (lowerStr (jstr "gpt-4o")) = false ∧
     (summarizeWithOpenAI (jstr "t")
         { apiKey := jstr "k", model := jstr "gpt-4o", systemPrompt := [] }
         []).2.head? = some Request.chat) :=
  ⟨⟨by decide, c5_theorem.1 _ _ _ (by decide)⟩,
   ⟨by decide, c5_theorem.2 _ _ _ (by decide) (by decide) (by decide)⟩⟩

/-- C6: when the chat call comes back HTTP 400 with a body naming both
`max_tokens` and `max_completion_tokens`, the engine switches to the
structured-response shape for the same request — here the first
structured attempt succeeds, so exactly one structured request follows
the chat one and its sanitized text is returned; for every other
non-success chat response the engine raises `OpenAI error (status): body`
having issued only the chat request. -/
theorem c6_theorem :
    (∀ (text : JStr) (settings : Settings) (p1 : Payload) (st2 : Nat) (p2 : Payload)
        (rest : List FetchOut) (c : JStr),
      settings.apiKey ≠ [] →
      validateHeaderByteString (jstr "Authorization")
        (jstr "Bearer " ++ trimWs settings.apiKey) = none →
      leadsWith (jstr "gpt-5") (lowerStr settings.model) = false →
      includesSubCI p1.body (jstr "max_tokens") = true →
      reTest reMaxCompletion (lowerStr p1.body) = true →
      200 ≤ st2 → st2 < 300 →
      p2.contentQ = some c →
      trimWs c ≠ [] →
      summarizeWithOpenAI text settings
          (FetchOut.resp 400 p1 :: FetchOut.resp st2 p2 :: rest) =
        (Except.ok (Background.sanitizeOneLine c),
         [Request.chat, Request.responses none true])) ∧
    (∀ (text : JStr) (settings : Settings) (st : Nat) (p : Payload) (rest : List FetchOut),
      settings.apiKey ≠ [] →
      validateHeaderByteString (jstr "Authorization")
        (jstr "Bearer " ++ trimWs settings.apiKey) = none →
      leadsWith (jstr "gpt-5") (lowerStr settings.model) = false →
      ¬(200 ≤ st ∧ st < 300) →
      chatFallbackTrigger st p.body = false →
      summarizeWithOpenAI text settings (FetchOut.resp st p :: rest) =
        (Except.error (jstr "OpenAI error (" ++ natToDigits st ++ jstr "): " ++ p.body),
         [Request.chat])) := by
  constructor
  · intro text settings p1 st2 p2 rest c hapi hva hm hb1 hb2 h2a h2b hc hcne
    simp only [summarizeWithOpenAI, hapi, if_false, hm, Bool.false_eq_true]
    rw [hva, validateCT]
    simp only [worldTake]
    rw [if_neg (by omega)]
    have htrig : chatFallbackTrigger 400 p1.body = true := by
      simp [chatFallbackTrigger, hb1, hb2]
    rw [htrig]
    simp only [if_true]
    rw [summarizeWithOpenAIResponses]
    rw [hva, validateCT]
    simp only [respOuter, respInner, worldTake]
    rw [if_pos ⟨h2a, h2b⟩, hc]
    simp only []
    rw [if_neg (by simp [hcne])]
  · intro text settings st p rest hapi hva hm hnok hnt
    simp only [summarizeWithOpenAI, hapi, if_false, hm, Bool.false_eq_true]
    rw [hva, validateCT]
    simp only [worldTake]
    rw [if_neg hnok, hnt]
    rfl

/-- C6 (witness): a 400 whose body names both token-cap parameters
triggers one structured attempt that succeeds; a plain 500 raises the
status-carrying error after the chat request only. -/
theorem c6_witness :
    (includesSubCI (jstr "max_tokens is unsupported; use max_completion_tokens")
        (jstr "max_tokens") = true ∧
     reTest reMaxCompletion
        (lowerStr (jstr "max_tokens is unsupported; use max_completion_tokens")) = true ∧
     summarizeWithOpenAI (jstr "t")
        { apiKey := jstr "k", model := jstr "gpt-4o", systemPrompt := [] }
        (FetchOut.resp 400
            { contentQ := none, statusField := [],
              body := jstr "max_tokens is unsupported; use max_completion_tokens" } ::
         FetchOut.resp 200
            { contentQ := some (jstr "Markets rallied."), statusField := [], body := [] } :: []) =
       (Except.ok (Background.sanitizeOneLine (jstr "Markets rallied.")),
        [Request.chat, Request.responses none true])) ∧
    (chatFallbackTrigger 500 (jstr "boom") = false ∧
     summarizeWithOpenAI (jstr "t")
        { apiKey := jstr "k", model := jstr "gpt-4o", systemPrompt := [] }
        (FetchOut.resp 500 { contentQ := none, statusField := [], body := jstr "boom" } :: []) =
       (Except.error (jstr "OpenAI error (" ++ natToDigits 500 ++ jstr "): " ++ jstr "boom"),
        [Request.chat])) :=
  ⟨⟨by decide, by decide,
    c6_theorem.1 _ _ _ _ _ _ _ (by decide) (by decide) (by decide) (by decide) (by decide)
      (by omega) (by omega) rfl (by decide)⟩,
   ⟨by decide,
    c6_theorem.2 _ _ _ _ _ (by decide) (by decide) (by decide) (by omega) (by decide)⟩⟩

/-- C4 (witness): a short key containing a Unicode ellipsis trips the
amended theorem's non-ASCII branch in both engine copies. -/
theorem c4_amended_witness :
    ((∃ c ∈ trimWs (jstr "sk-…"), 127 < c) ∨ 200 < (trimWs (jstr "sk-…")).length) ∧
    ((∃ m, summarizeWithOpenAI (jstr "t")
          { apiKey := jstr "sk-…", model := jstr "m", systemPrompt := [] } [] =
        (Except.error m, []) ∧
      (m = headerNonAsciiMsg (jstr "Authorization") ∨ m = apiKeyTooLongMsg) ∧
      ¬ ∃ a b, m = a ++ trimWs (jstr "sk-…") ++ b) ∧
     (∃ m, ContentScript.summarizeWithOpenAI (jstr "t")
          { apiKey := jstr "sk-…", model := jstr "m", systemPrompt := [] } [] =
        (Except.error m, []) ∧
      (m = ContentScript.headerNonAsciiMsg (jstr "Authorization") ∨
       m = ContentScript.apiKeyTooLongMsg) ∧
      (200 < (trimWs (jstr "sk-…")).length →
        ¬ ∃ a b, m = a ++ trimWs (jstr "sk-…") ++ b))) :=
  ⟨Or.inl (by decide),
   c4_amended_theorem (jstr "t")
     { apiKey := jstr "sk-…", model := jstr "m", systemPrompt := [] } []
     (Or.inl (by decide))⟩

/-- C7 (counterexample): the background pipeline's parse step
(`tryParse` in `src/background.js`) is a title/meta/body heuristic, not
the extractor/normalizer pair: on a fixture with a title and a 210-letter
body it returns `"T. aaa…"` (length 213), which differs from
`htmlToText` of the same HTML (`"T aaa…"`) and, being shorter than 400
characters, cannot be a main-content-extractor result of length ≥ 400
either. -/
theorem c7_counterexample :
    Background.tryParse fixtureHtml ≠ htmlToText fixtureHtml ∧
    (Background.tryParse fixtureHtml).length < 400 := by
  constructor
  · decide
  · decide

/-- C7 (amended): in the content-script pipeline, the parse step returns
the `extractMainText` result exactly when it is non-empty and at least
400 characters long, and otherwise returns `htmlToText` applied to the
same HTML; the background pipeline's parse step instead uses
title/meta-description/body regex heuristics. -/
theorem c7_amended_theorem :
    (∀ (dom : Option JStr) (html : JStr), 400 ≤ (extractMainText dom).length →
      ContentScript.tryParse dom html = extractMainText dom) ∧
    (∀ (dom : Option JStr) (html : JStr), (extractMainText dom).length < 400 →
      ContentScript.tryParse dom html = htmlToText html) := by
  constructor
  · intro dom html h
    have hne : extractMainText dom ≠ [] := by
      intro he
      rw [he] at h
      simp at h
    rw [ContentScript.tryParse, if_pos ⟨hne, h⟩]
  · intro dom html h
    rw [ContentScript.tryParse, if_neg]
    rintro ⟨_, hge⟩
    omega

/-- C7 (witness): a 400-character DOM outcome is returned as is; an
empty DOM outcome falls back to `htmlToText`. -/
theorem c7_amended_witness :
    (400 ≤ (extractMainText (some (List.replicate 400 98))).length ∧
     ContentScript.tryParse (some (List.replicate 400 98)) (jstr "<p>x</p>") =
       extractMainText (some (List.replicate 400 98))) ∧
    ((extractMainText none).length < 400 ∧
     ContentScript.tryParse none (jstr "<p>x</p>") = htmlToText (jstr "<p>x</p>")) :=
  ⟨⟨by decide, c7_amended_theorem.1 _ _ (by decide)⟩,
   ⟨by decide, c7_amended_theorem.2 _ _ (by decide)⟩⟩

/-- C8: whatever candidate list the collection phase produced, any URL
the selection phase of `extractExternalUrlFromGoogleNews` returns has a
host that carries none of the Google-infrastructure markers, is not
blacklisted, and in particular is neither equal to nor a dot-suffix
subdomain of any entry of the fixed disallowed-host set. -/
theorem c8_theorem (hrefs : List Url) (u : Url) (h : selectExternalUrl hrefs = some u) :
    isGoogleInfraHost u.host = false ∧
    isUrlBlacklisted u.host u.path = false ∧
    ∀ b ∈ blacklistedHosts, u.host ≠ b ∧ endsWithSub u.host (jstr "." ++ b) = false := by
  have key : isGoogleInfraHost u.host = false ∧ isUrlBlacklisted u.host u.path = false := by
    rw [selectExternalUrl] at h
    cases h1 : hrefs.find? pass1Ok with
    | some v =>
      rw [h1] at h
      have hv := List.find?_some h1
      have huv : v = u := by injection h
      subst huv
      simp only [pass1Ok, Bool.and_eq_true, Bool.not_eq_true'] at hv
      exact ⟨hv.1.1, hv.1.2⟩
    | none =>
      rw [h1] at h
      cases h2 : hrefs.find? pass2Ok with
      | some v =>
        rw [h2] at h
        have hv := List.find?_some h2
        have huv : v = u := by injection h
        subst huv
        simp only [pass2Ok, Bool.and_eq_true, Bool.not_eq_true'] at hv
        exact ⟨hv.1.1.1.1, hv.1.1.1.2⟩
      | none =>
        rw [h2] at h
        have hv := List.find?_some h
        simp only [pass3Ok, Bool.and_eq_true, Bool.not_eq_true'] at hv
        exact ⟨hv.1.1.1, hv.1.1.2⟩
  refine ⟨key.1, key.2, ?_⟩
  intro b hb
  have hbl := key.2
  rw [isUrlBlacklisted, Bool.or_eq_false_iff] at hbl
  have hhosts := hbl.1
  rw [List.any_eq_false] at hhosts
  have hbthis := hhosts b hb
  simp only [Bool.not_eq_true, Bool.or_eq_false_iff] at hbthis
  refine ⟨?_, hbthis.2⟩
  intro he
  rw [he] at hbthis
  exact absurd (includesSub_self b) (by simp [hbthis.1])

/-- C8 (witness): with a blacklisted w3.org candidate ahead of an
admissible publisher candidate, the scanner returns the publisher URL,
which satisfies all the disallowed-host conclusions. -/
theorem c8_witness :
    selectExternalUrl [fixtureBadUrl, fixtureGoodUrl] = some fixtureGoodUrl ∧
    (isGoogleInfraHost fixtureGoodUrl.host = false ∧
     isUrlBlacklisted fixtureGoodUrl.host fixtureGoodUrl.path = false ∧
     ∀ b ∈ blacklistedHosts, fixtureGoodUrl.host ≠ b ∧
       endsWithSub fixtureGoodUrl.host (jstr "." ++ b) = false) :=
  ⟨by decide, c8_theorem [fixtureBadUrl, fixtureGoodUrl] fixtureGoodUrl (by decide)⟩

theorem isLikely_not_disallowed (u : Url) (h : isLikelyArticleUrl (some u) = true) :
    isDisallowedHost u.host = false := by
  by_cases hd : isDisallowedHost u.host
  · rw [isLikelyArticleUrl, if_pos hd] at h
    exact absurd h (by simp)
  · exact Bool.eq_false_iff.mpr hd

theorem attempt_qualifies {resolveUrl : JStr → Option Url} {a : ProbeFetch} {h : JStr}
    (he : probeAttemptResult resolveUrl a = some h) : qualifiesProbe resolveUrl a := by
  cases a with
  | thrown => simp [probeAttemptResult] at he
  | resp st loc =>
    simp only [probeAttemptResult] at he
    by_cases h3 : 300 ≤ st ∧ st < 400
    · rw [if_pos h3] at he
      cases loc with
      | none => simp at he
      | some l =>
        simp only at he
        by_cases hl : l ≠ []
        · rw [if_pos hl] at he
          cases hr : resolveUrl l with
          | none => rw [hr] at he; simp at he
          | some u =>
            rw [hr] at he
            by_cases hlik : isLikelyArticleUrl (some u) = true
            · exact ⟨st, l, u, rfl, h3.1, h3.2, hl, hr, hlik⟩
            · simp [hlik] at he
        · rw [if_neg hl] at he
          simp at he
    · rw [if_neg h3] at he
      simp at he

theorem attempt_none_of_not_qualifies {resolveUrl : JStr → Option Url} {a : ProbeFetch}
    (hq : ¬ qualifiesProbe resolveUrl a) : probeAttemptResult resolveUrl a = none := by
  cases he : probeAttemptResult resolveUrl a with
  | none => rfl
  | some h => exact absurd (attempt_qualifies he) hq

/-- C9: `probeExternalRedirect` returns a non-empty URL only when one of
its two attempts receives a 3xx response carrying a Location header whose
absolutized value passes `isLikelyArticleUrl`; in every other case —
including thrown fetches — it returns the empty string.  Passing the
article-likelihood test in particular rules out every disallowed host. -/
theorem c9_theorem (resolveUrl : JStr → Option Url) (a1 a2 : ProbeFetch) :
    (probeExternalRedirect resolveUrl a1 a2 ≠ [] →
      qualifiesProbe resolveUrl a1 ∨ qualifiesProbe resolveUrl a2) ∧
    (¬ qualifiesProbe resolveUrl a1 → ¬ qualifiesProbe resolveUrl a2 →
      probeExternalRedirect resolveUrl a1 a2 = []) ∧
    (∀ u : Url, isLikelyArticleUrl (some u) = true → isDisallowedHost u.host = false) := by
  refine ⟨?_, ?_, fun u => isLikely_not_disallowed u⟩
  · intro hne
    rw [probeExternalRedirect] at hne
    cases hr1 : probeAttemptResult resolveUrl a1 with
    | some h1 => exact Or.inl (attempt_qualifies hr1)
    | none =>
      rw [hr1] at hne
      cases hr2 : probeAttemptResult resolveUrl a2 with
      | some h2 => exact Or.inr (attempt_qualifies hr2)
      | none =>
        rw [hr2] at hne
        exact absurd rfl hne
  · intro hq1 hq2
    rw [probeExternalRedirect, attempt_none_of_not_qualifies hq1,
        attempt_none_of_not_qualifies hq2]

/-- C9 (witness): a 302 with a date-shaped publisher Location makes the
probe return that URL, so the first attempt qualifies. -/
theorem c9_witness :
    probeExternalRedirect fixtureResolve
        (ProbeFetch.resp 302 (some (jstr "https://publisher.example/2025/08/14/story-title")))
        ProbeFetch.thrown ≠ [] ∧
    (qualifiesProbe fixtureResolve
        (ProbeFetch.resp 302 (some (jstr "https://publisher.example/2025/08/14/story-title"))) ∨
     qualifiesProbe fixtureResolve ProbeFetch.thrown) :=
  ⟨by decide, (c9_theorem _ _ _).1 (by decide)⟩

/-- C10: `fetchHtml` tries the default request; on success it returns its
body having issued only that request, and on failure (thrown or non-2xx)
it performs exactly one retry with the Google-News referrer, returning
the retry's body on success and raising the FIRST attempt's error when
both fail, discarding the retry's error. -/
theorem c10_theorem (a1 a2 : FetchOut) :
    (fetchOk a1 = true → fetchHtml a1 a2 = (Except.ok (bodyOf a1), [FetchReq.plain])) ∧
    (fetchOk a1 = false →
      (fetchHtml a1 a2).2 = [FetchReq.plain, FetchReq.withReferrer] ∧
      (fetchOk a2 = true → (fetchHtml a1 a2).1 = Except.ok (bodyOf a2)) ∧
      (fetchOk a2 = false → (fetchHtml a1 a2).1 = Except.error (attemptErr a1))) := by
  have hretry : ∀ (e : JStr),
      (retryFetch e a2).2 = [FetchReq.plain, FetchReq.withReferrer] ∧
      (fetchOk a2 = true → (retryFetch e a2).1 = Except.ok (bodyOf a2)) ∧
      (fetchOk a2 = false → (retryFetch e a2).1 = Except.error e) := by
    intro e
    cases a2 with
    | thrown m => exact ⟨rfl, by simp [fetchOk], fun _ => rfl⟩
    | resp st p =>
      by_cases hok : 200 ≤ st ∧ st < 300
      · refine ⟨by simp [retryFetch, hok], fun _ => by simp [retryFetch, hok, bodyOf], ?_⟩
        intro hf
        simp only [fetchOk, Bool.and_eq_true, decide_eq_true_eq] at hf
        exact absurd hok (by simpa using hf)
      · refine ⟨by simp [retryFetch, hok], ?_, fun _ => by simp [retryFetch, hok]⟩
        intro ht
        simp only [fetchOk, Bool.and_eq_true, decide_eq_true_eq] at ht
        exact absurd ht hok
  cases a1 with
  | thrown m =>
    refine ⟨fun h => by simp [fetchOk] at h, fun _ => ?_⟩
    exact hretry m
  | resp st p =>
    by_cases hok : 200 ≤ st ∧ st < 300
    · refine ⟨fun _ => by simp [fetchHtml, hok, bodyOf], fun hf => ?_⟩
      simp only [fetchOk, Bool.and_eq_true, decide_eq_true_eq] at hf
      exact absurd hok (by simpa using hf)
    · refine ⟨fun ht => ?_, fun _ => ?_⟩
      · simp only [fetchOk, Bool.and_eq_true, decide_eq_true_eq] at ht
        exact absurd ht hok
      · have : fetchHtml (FetchOut.resp st p) a2 =
            retryFetch (jstr "Fetch failed (" ++ natToDigits st ++ jstr ")") a2 := by
          simp [fetchHtml, hok]
        rw [this]
        exact hretry _

/-- C10 (witness): a 2xx first attempt returns immediately; a 404 first
attempt triggers the referrer retry, and with a thrown retry the
reported error is the first attempt's `Fetch failed (404)`. -/
theorem c10_witness :
    (fetchOk (FetchOut.resp 200 { contentQ := none, statusField := [], body := jstr "page" }) = true ∧
     fetchHtml (FetchOut.resp 200 { contentQ := none, statusField := [], body := jstr "page" })
         (FetchOut.thrown (jstr "x")) =
       (Except.ok (bodyOf (FetchOut.resp 200 { contentQ := none, statusField := [], body := jstr "page" })),
        [FetchReq.plain])) ∧
    (fetchOk (FetchOut.resp 404 { contentQ := none, statusField := [], body := jstr "nope" }) = false ∧
     ((fetchHtml (FetchOut.resp 404 { contentQ := none, statusField := [], body := jstr "nope" })
          (FetchOut.thrown (jstr "x"))).2 = [FetchReq.plain, FetchReq.withReferrer] ∧
      (fetchOk (FetchOut.thrown (jstr "x")) = true →
        (fetchHtml (FetchOut.resp 404 { contentQ := none, statusField := [], body := jstr "nope" })
            (FetchOut.thrown (jstr "x"))).1 = Except.ok (bodyOf (FetchOut.thrown (jstr "x")))) ∧
      (fetchOk (FetchOut.thrown (jstr "x")) = false →
        (fetchHtml (FetchOut.resp 404 { contentQ := none, statusField := [], body := jstr "nope" })
            (FetchOut.thrown (jstr "x"))).1 =
          Except.error (attemptErr (FetchOut.resp 404 { contentQ := none, statusField := [], body := jstr "nope" }))))) :=
  ⟨⟨by decide, (c10_theorem _ _).1 (by decide)⟩,
   ⟨by decide, (c10_theorem _ _).2 (by decide)⟩⟩

end GNS
